import Mathlib

/-!
# Session lifecycle coordinator (`UMultiplayerSessionsSubsystem`)

A shallow embedding of `MultiplayerSessionsSubsystem.cpp`.  The subsystem is a
single-threaded object with mutable members that talks to the engine's online
session interface.  It is embedded by explicit state passing on a `World`:

* `World.sub`       the members of the subsystem object,
* `World.engine`    what the engine answers when the subsystem asks it something
                    (the session interface is an external collaborator, so its
                    answers are free parameters of every statement),
* `World.delegates` the completion delegate lists kept by the session interface,
* `World.trace`     every call made on the session interface and every broadcast
                    on one of the subsystem's own multicast delegates, in order.

The find handler of the menu widget (`UMenu::OnFindSessions` in `Menu.cpp`), the one
consumer that calls back into the subsystem, is embedded the same way.

On-screen debug messages (`GEngine->AddOnScreenDebugMessage`) are presentation
only and are not part of the embedding.
-/

namespace MultiplayerSessions

/-! ## Engine types used by the subsystem -/

/-- Result codes of `EOnJoinSessionCompleteResult::Type`. -/
inductive EOnJoinSessionCompleteResult
  | Success
  | SessionIsFull
  | SessionDoesNotExist
  | CouldNotRetrieveAddress
  | AlreadyInSession
  | UnknownError
  deriving DecidableEq, Repr

/-- Search result `FOnlineSessionSearchResult`: the parts the repository reads
(`GetSessionIdStr()`, `Session.OwningUserName`, `Session.SessionSettings`). -/
structure FOnlineSessionSearchResult where
  SessionIdStr : String
  OwningUserName : String
  SessionSettings : List (String × String)
  deriving DecidableEq, Repr

/-- Settings object `FOnlineSessionSettings`: the members written by `CreateSession`
and the key/value bag written through `Set`. -/
structure FOnlineSessionSettings where
  bIsLANMatch : Bool
  NumPublicConnections : Int
  bAllowJoinInProgress : Bool
  bAllowJoinViaPresence : Bool
  bShouldAdvertise : Bool
  bUsesPresence : Bool
  bUseLobbiesIfAvailable : Bool
  Settings : List (String × String)
  BuildUniqueId : Int
  deriving DecidableEq, Repr

/-- Modelled from the spec: the value of `new FOnlineSessionSettings()` (the engine
constructor is not part of the repository); every member that `CreateSession` reads
back is overwritten before use. -/
def FOnlineSessionSettings.new : FOnlineSessionSettings :=
  { bIsLANMatch := false, NumPublicConnections := 0, bAllowJoinInProgress := false,
    bAllowJoinViaPresence := false, bShouldAdvertise := false, bUsesPresence := false,
    bUseLobbiesIfAvailable := false, Settings := [], BuildUniqueId := 0 }

/-- Keyed write `Set(Key, Value, ...)` on a settings bag: replaces the value stored under
`Key` or adds the pair. -/
def SettingsSet {β : Type} (Key : String) (Value : β) : List (String × β) → List (String × β)
  | [] => [(Key, Value)]
  | (k, v) :: rest =>
    if k = Key then (Key, Value) :: rest else (k, v) :: SettingsSet Key Value rest

/-- Keyed read `Get(Key, OutValue)`: the stored value, when the key is present. -/
def SettingsGet {β : Type} (Key : String) : List (String × β) → Option β
  | [] => none
  | (k, v) :: rest => if k = Key then some v else SettingsGet Key rest

/-- Search object `FOnlineSessionSearch`: the members written by `FindSessions` and the
result array the session interface fills in. -/
structure FOnlineSessionSearch where
  SearchResults : List FOnlineSessionSearchResult
  MaxSearchResults : Int
  bIsLanQuery : Bool
  QuerySettings : List (String × Bool)
  deriving DecidableEq, Repr

/-- Modelled from the spec: the value of `new FOnlineSessionSearch()` (engine
constructor): no results, no query settings. -/
def FOnlineSessionSearch.new : FOnlineSessionSearch :=
  { SearchResults := [], MaxSearchResults := 1, bIsLanQuery := false, QuerySettings := [] }

/-- Modelled from the spec: the well-known session name `NAME_GameSession` (an engine
constant). -/
def NAME_GameSession : String := "GameSession"

/-- Modelled from the spec: the query key `SEARCH_PRESENCE` (an engine constant). -/
def SEARCH_PRESENCE : String := "PRESENCESEARCH"

/-! ## The world the subsystem runs in -/

/-- The four operation kinds that register a completion delegate. -/
inductive OpKind
  | create
  | find
  | join
  | destroy
  deriving DecidableEq, Repr

/-- Events broadcast on the subsystem's own multicast delegates. -/
inductive Event
  | MultiplayerOnCreateSessionComplete (bWasSuccessful : Bool)
  | MultiplayerOnFindSessionsComplete (SearchResults : List FOnlineSessionSearchResult)
      (bWasSuccessful : Bool)
  | MultiplayerOnJoinSessionComplete (Result : EOnJoinSessionCompleteResult)
  | MultiplayerOnDestroySessionComplete (bWasSuccessful : Bool)
  | MultiplayerOnStartSessionComplete (bWasSuccessful : Bool)
  deriving DecidableEq, Repr

/-- One observable step of the subsystem: a call on the session interface, recorded with
the value the call returned (`Found`: the lookup did not return `nullptr`; `Accepted`: the
request call returned `true`), or a broadcast to the subsystem's subscribers. -/
inductive Action
  | GetNamedSession (SessionName : String) (Found : Bool)
  | AddDelegate (k : OpKind) (Handle : Nat)
  | ClearDelegate (k : OpKind) (Handle : Nat)
  | CreateSession (UserId : Nat) (SessionName : String) (Settings : FOnlineSessionSettings)
      (Accepted : Bool)
  | FindSessions (UserId : Nat) (Search : FOnlineSessionSearch) (Accepted : Bool)
  | JoinSession (UserId : Nat) (SessionName : String) (Result : FOnlineSessionSearchResult)
      (Accepted : Bool)
  | DestroySession (SessionName : String) (Accepted : Bool)
  | Broadcast (e : Event)
  deriving DecidableEq, Repr

/-- Answers of the engine during one call of the subsystem.  They are inputs: the
theorems quantify over them. -/
structure Engine where
  /-- Value of `IOnlineSubsystem::Get()->GetSubsystemName()`. -/
  SubsystemName : String
  /-- Whether `GetNamedSession(NAME_GameSession)` is not `nullptr`. -/
  NamedSession : Bool
  /-- Return value of `SessionInterface->CreateSession(...)`. -/
  CreateSessionAccepted : Bool
  /-- Return value of `SessionInterface->FindSessions(...)`. -/
  FindSessionsAccepted : Bool
  /-- Return value of `SessionInterface->JoinSession(...)`. -/
  JoinSessionAccepted : Bool
  /-- Return value of `SessionInterface->DestroySession(...)`. -/
  DestroySessionAccepted : Bool
  /-- Value of `GetWorld()->GetFirstLocalPlayerFromController()->GetPreferredUniqueNetId()`. -/
  PreferredUniqueNetId : Nat
  deriving DecidableEq, Repr

/-- Completion delegate lists of the session interface, one per operation kind, holding
the handles of the registered delegates; `NextHandle` is the next handle to hand out. -/
structure DelegateLists where
  NextHandle : Nat
  OnCreateSessionCompleteDelegates : List Nat
  OnFindSessionsCompleteDelegates : List Nat
  OnJoinSessionCompleteDelegates : List Nat
  OnDestroySessionCompleteDelegates : List Nat
  deriving DecidableEq, Repr

/-- Delegate list of one kind. -/
def DelegateLists.get (d : DelegateLists) : OpKind → List Nat
  | OpKind.create => d.OnCreateSessionCompleteDelegates
  | OpKind.find => d.OnFindSessionsCompleteDelegates
  | OpKind.join => d.OnJoinSessionCompleteDelegates
  | OpKind.destroy => d.OnDestroySessionCompleteDelegates

/-- Replace the delegate list of one kind. -/
def DelegateLists.set (d : DelegateLists) (k : OpKind) (l : List Nat) : DelegateLists :=
  match k with
  | OpKind.create => { d with OnCreateSessionCompleteDelegates := l }
  | OpKind.find => { d with OnFindSessionsCompleteDelegates := l }
  | OpKind.join => { d with OnJoinSessionCompleteDelegates := l }
  | OpKind.destroy => { d with OnDestroySessionCompleteDelegates := l }

/-- Members of `UMultiplayerSessionsSubsystem`.  `SessionInterfaceValid` is
`SessionInterface.IsValid()`; a delegate handle is a number, `0` being the
default-constructed handle.  The members `bCreateSessionOnDestroy`,
`LastNumPublicConnections` and `LastMatchType` are used by the source file but not declared
in the header at hand; their types are taken from their uses (the spec calls them
`deferredCreate`, `deferredConnections`, `deferredMatchType`). -/
structure Subsystem where
  SessionInterfaceValid : Bool
  LastSessionSettings : Option FOnlineSessionSettings
  LastSessionSearch : Option FOnlineSessionSearch
  CreateSessionCompleteDelegateHandle : Nat
  FindSessionsCompleteDelegateHandle : Nat
  JoinSessionCompleteDelegateHandle : Nat
  DestroySessionCompleteDelegateHandle : Nat
  StartSessionCompleteDelegateHandle : Nat
  bCreateSessionOnDestroy : Bool
  LastNumPublicConnections : Int
  LastMatchType : String
  deriving DecidableEq, Repr

/-- The handle member of one kind. -/
def Subsystem.handle (s : Subsystem) : OpKind → Nat
  | OpKind.create => s.CreateSessionCompleteDelegateHandle
  | OpKind.find => s.FindSessionsCompleteDelegateHandle
  | OpKind.join => s.JoinSessionCompleteDelegateHandle
  | OpKind.destroy => s.DestroySessionCompleteDelegateHandle

/-- Subsystem object, engine answers, delegate lists and the trace so far. -/
structure World where
  sub : Subsystem
  engine : Engine
  delegates : DelegateLists
  trace : List Action
  deriving DecidableEq, Repr

/-! ## Primitive steps -/

/-- Record a call on the session interface. -/
def World.call (a : Action) (w : World) : World :=
  { w with trace := w.trace ++ [a] }

/-- Broadcast on one of the subsystem's own delegates: `X.Broadcast(...)`. -/
def World.Broadcast (e : Event) (w : World) : World :=
  { w with trace := w.trace ++ [Action.Broadcast e] }

/-- Registration `SessionInterface->AddOn...CompleteDelegate_Handle(Delegate)`: appends a
delegate under a fresh handle and returns the handle. -/
def World.AddDelegate_Handle (k : OpKind) (w : World) : Nat × World :=
  (w.delegates.NextHandle,
   { w with
     delegates :=
       { w.delegates.set k (w.delegates.get k ++ [w.delegates.NextHandle]) with
         NextHandle := w.delegates.NextHandle + 1 },
     trace := w.trace ++ [Action.AddDelegate k w.delegates.NextHandle] })

/-- Removal `SessionInterface->ClearOn...CompleteDelegate_Handle(Handle)`: removes the
delegate registered under the handle, if any. -/
def World.ClearDelegate_Handle (k : OpKind) (Handle : Nat) (w : World) : World :=
  { w with
    delegates := w.delegates.set k ((w.delegates.get k).filter (fun h => h != Handle)),
    trace := w.trace ++ [Action.ClearDelegate k Handle] }

/-! ## The operations of the subsystem -/

/-- The method `UMultiplayerSessionsSubsystem::DestroySession`. -/
def DestroySession (w : World) : World :=
  if !w.sub.SessionInterfaceValid then
    w.Broadcast (Event.MultiplayerOnDestroySessionComplete false)
  else
    let (h, w) := w.AddDelegate_Handle OpKind.destroy
    let w := { w with sub := { w.sub with DestroySessionCompleteDelegateHandle := h } }
    let w := w.call (Action.DestroySession NAME_GameSession w.engine.DestroySessionAccepted)
    if !w.engine.DestroySessionAccepted then
      let w := w.ClearDelegate_Handle OpKind.destroy w.sub.DestroySessionCompleteDelegateHandle
      w.Broadcast (Event.MultiplayerOnDestroySessionComplete false)
    else
      w

/-- The settings object built by `CreateSession` (source lines 77 to 87). -/
def buildSessionSettings (SubsystemName : String) (NumPublicConnections : Int)
    (MatchType : String) : FOnlineSessionSettings :=
  let s := FOnlineSessionSettings.new
  let s := { s with bIsLANMatch := if SubsystemName = "NULL" then true else false }
  let s := { s with NumPublicConnections := NumPublicConnections }
  let s := { s with bAllowJoinInProgress := true }
  let s := { s with bAllowJoinViaPresence := true }
  let s := { s with bShouldAdvertise := true }
  let s := { s with bUsesPresence := true }
  let s := { s with bUseLobbiesIfAvailable := true }
  let s := { s with Settings := SettingsSet "MatchType" MatchType s.Settings }
  { s with BuildUniqueId := 1 }

/-- The method `UMultiplayerSessionsSubsystem::CreateSession`.  The branch taken when a
session already exists does not return: control continues with the registration and
the create request below it, as in the source. -/
def CreateSession (NumPublicConnections : Int) (MatchType : String) (w : World) : World :=
  if !w.sub.SessionInterfaceValid then
    w
  else
    let w := w.call (Action.GetNamedSession NAME_GameSession w.engine.NamedSession)
    let w :=
      if w.engine.NamedSession then
        let w := { w with sub := { w.sub with bCreateSessionOnDestroy := true } }
        let w := { w with sub := { w.sub with LastNumPublicConnections := NumPublicConnections } }
        let w := { w with sub := { w.sub with LastMatchType := MatchType } }
        DestroySession w
      else
        w
    let (h, w) := w.AddDelegate_Handle OpKind.create
    let w := { w with sub := { w.sub with CreateSessionCompleteDelegateHandle := h } }
    let LastSessionSettings :=
      buildSessionSettings w.engine.SubsystemName NumPublicConnections MatchType
    let w := { w with sub := { w.sub with LastSessionSettings := some LastSessionSettings } }
    let w := w.call
      (Action.CreateSession w.engine.PreferredUniqueNetId NAME_GameSession LastSessionSettings
        w.engine.CreateSessionAccepted)
    if !w.engine.CreateSessionAccepted then
      let w := w.ClearDelegate_Handle OpKind.create w.sub.CreateSessionCompleteDelegateHandle
      w.Broadcast (Event.MultiplayerOnCreateSessionComplete false)
    else
      w

/-- The search object built by `FindSessions` (source lines 119 to 126). -/
def buildSessionSearch (SubsystemName : String) (MaxSearchResults : Int) :
    FOnlineSessionSearch :=
  let s := FOnlineSessionSearch.new
  let s := { s with MaxSearchResults := MaxSearchResults }
  let s := { s with bIsLanQuery := if SubsystemName = "NULL" then true else false }
  { s with QuerySettings := SettingsSet SEARCH_PRESENCE true s.QuerySettings }

/-- The method `UMultiplayerSessionsSubsystem::FindSessions`. -/
def FindSessions (MaxSearchResults : Int) (w : World) : World :=
  if !w.sub.SessionInterfaceValid then
    w
  else
    let (h, w) := w.AddDelegate_Handle OpKind.find
    let w := { w with sub := { w.sub with FindSessionsCompleteDelegateHandle := h } }
    let LastSessionSearch := buildSessionSearch w.engine.SubsystemName MaxSearchResults
    let w := { w with sub := { w.sub with LastSessionSearch := some LastSessionSearch } }
    let w := w.call
      (Action.FindSessions w.engine.PreferredUniqueNetId LastSessionSearch
        w.engine.FindSessionsAccepted)
    if !w.engine.FindSessionsAccepted then
      let w := w.ClearDelegate_Handle OpKind.find w.sub.FindSessionsCompleteDelegateHandle
      w.Broadcast (Event.MultiplayerOnFindSessionsComplete [] false)
    else
      w

/-- The method `UMultiplayerSessionsSubsystem::JoinSession`. -/
def JoinSession (SessionResult : FOnlineSessionSearchResult) (w : World) : World :=
  if !w.sub.SessionInterfaceValid then
    w.Broadcast (Event.MultiplayerOnJoinSessionComplete EOnJoinSessionCompleteResult.UnknownError)
  else
    let (h, w) := w.AddDelegate_Handle OpKind.join
    let w := { w with sub := { w.sub with JoinSessionCompleteDelegateHandle := h } }
    let w := w.call
      (Action.JoinSession w.engine.PreferredUniqueNetId NAME_GameSession SessionResult
        w.engine.JoinSessionAccepted)
    if !w.engine.JoinSessionAccepted then
      let w := w.ClearDelegate_Handle OpKind.join w.sub.JoinSessionCompleteDelegateHandle
      w.Broadcast
        (Event.MultiplayerOnJoinSessionComplete EOnJoinSessionCompleteResult.UnknownError)
    else
      w

/-- The method `UMultiplayerSessionsSubsystem::StartSession` (empty body). -/
def StartSession (w : World) : World :=
  w

/-- The callback `UMultiplayerSessionsSubsystem::OnCreateSessionComplete`. -/
def OnCreateSessionComplete (_SessionName : String) (bWasSuccessful : Bool) (w : World) :
    World :=
  let w :=
    if w.sub.SessionInterfaceValid then
      w.ClearDelegate_Handle OpKind.create w.sub.CreateSessionCompleteDelegateHandle
    else
      w
  w.Broadcast (Event.MultiplayerOnCreateSessionComplete bWasSuccessful)

/-- The callback `UMultiplayerSessionsSubsystem::OnFindSessionsComplete`.  The source reads
`LastSessionSearch->SearchResults` without a null check: when no search object is held
the behaviour is undefined and the embedding returns `none`. -/
def OnFindSessionsComplete (bWasSuccessful : Bool) (w : World) : Option World :=
  let w :=
    if w.sub.SessionInterfaceValid then
      w.ClearDelegate_Handle OpKind.find w.sub.FindSessionsCompleteDelegateHandle
    else
      w
  match w.sub.LastSessionSearch with
  | none => none
  | some LastSessionSearch =>
    if LastSessionSearch.SearchResults.length ≤ 0 then
      some (w.Broadcast (Event.MultiplayerOnFindSessionsComplete [] false))
    else
      some (w.Broadcast
        (Event.MultiplayerOnFindSessionsComplete LastSessionSearch.SearchResults bWasSuccessful))

/-- The callback `UMultiplayerSessionsSubsystem::OnJoinSessionComplete`. -/
def OnJoinSessionComplete (_SessionName : String) (Result : EOnJoinSessionCompleteResult)
    (w : World) : World :=
  let w :=
    if w.sub.SessionInterfaceValid then
      w.ClearDelegate_Handle OpKind.join w.sub.JoinSessionCompleteDelegateHandle
    else
      w
  w.Broadcast (Event.MultiplayerOnJoinSessionComplete Result)

/-- The callback `UMultiplayerSessionsSubsystem::OnDestroySessionComplete`. -/
def OnDestroySessionComplete (_SessionName : String) (bWasSuccessful : Bool) (w : World) :
    World :=
  let w :=
    if w.sub.SessionInterfaceValid then
      w.ClearDelegate_Handle OpKind.destroy w.sub.DestroySessionCompleteDelegateHandle
    else
      w
  let w :=
    if bWasSuccessful && w.sub.bCreateSessionOnDestroy then
      let w := { w with sub := { w.sub with bCreateSessionOnDestroy := false } }
      CreateSession w.sub.LastNumPublicConnections w.sub.LastMatchType w
    else
      w
  w.Broadcast (Event.MultiplayerOnDestroySessionComplete bWasSuccessful)

/-- The callback `UMultiplayerSessionsSubsystem::OnStartSessionComplete` (empty body). -/
def OnStartSessionComplete (_SessionName : String) (_bWasSuccessful : Bool) (w : World) :
    World :=
  w

/-! ## Observing a run -/

/-- The members of a freshly constructed subsystem object: the constructor only fetches
the session interface, which may be missing; the handles are default-constructed, the
shared pointers are null and no deferred create is pending. -/
def Subsystem.new (SessionInterfaceValid : Bool) : Subsystem :=
  { SessionInterfaceValid := SessionInterfaceValid,
    LastSessionSettings := none,
    LastSessionSearch := none,
    CreateSessionCompleteDelegateHandle := 0,
    FindSessionsCompleteDelegateHandle := 0,
    JoinSessionCompleteDelegateHandle := 0,
    DestroySessionCompleteDelegateHandle := 0,
    StartSessionCompleteDelegateHandle := 0,
    bCreateSessionOnDestroy := false,
    LastNumPublicConnections := 0,
    LastMatchType := "" }

/-- The world right after construction: no delegate registered, nothing traced. -/
def World.init (SessionInterfaceValid : Bool) (e : Engine) : World :=
  { sub := Subsystem.new SessionInterfaceValid,
    engine := e,
    delegates :=
      { NextHandle := 1, OnCreateSessionCompleteDelegates := [],
        OnFindSessionsCompleteDelegates := [], OnJoinSessionCompleteDelegates := [],
        OnDestroySessionCompleteDelegates := [] },
    trace := [] }

/-- The engine changes its answers between two calls of the subsystem. -/
def World.setEngine (e : Engine) (w : World) : World :=
  { w with engine := e }

/-- The actions appended to the trace between an earlier and a later world. -/
def newActions (w w' : World) : List Action :=
  w'.trace.drop w.trace.length

/-- The event carried by a broadcast action. -/
def Action.event? : Action → Option Event
  | Action.Broadcast e => some e
  | _ => none

/-- The events broadcast in a list of actions, in order. -/
def events (l : List Action) : List Event :=
  l.filterMap Action.event?

/-- Whether an action is a call on the session interface (not a broadcast). -/
def Action.isBackendCall : Action → Bool
  | Action.Broadcast _ => false
  | _ => true

/-- Whether an action is a create request to the session interface. -/
def Action.isCreateRequest : Action → Bool
  | Action.CreateSession _ _ _ _ => true
  | _ => false

/-- Whether an event is a create-complete event. -/
def Event.isCreateComplete : Event → Bool
  | Event.MultiplayerOnCreateSessionComplete _ => true
  | _ => false

/-- Whether an action is a destroy request for the given session name. -/
def Action.isDestroyRequest (SessionName : String) : Action → Bool
  | Action.DestroySession name _ => name = SessionName
  | _ => false

/-- Whether an element satisfying `p` occurs in `l` before the first element satisfying
`q` (anywhere in `l` when no element satisfies `q`): a `p` precedes every `q`. -/
def precedesEvery {α : Type} (p q : α → Bool) (l : List α) : Bool :=
  (l.takeWhile (fun a => !q a)).any p

/-- An engine that reports an existing session and accepts every request. -/
def engineExistingAcceptAll : Engine :=
  { SubsystemName := "Steam", NamedSession := true, CreateSessionAccepted := true,
    FindSessionsAccepted := true, JoinSessionAccepted := true,
    DestroySessionAccepted := true, PreferredUniqueNetId := 7 }

/-- An engine that reports an empty slot and accepts every request. -/
def engineEmptyAcceptAll : Engine :=
  { engineExistingAcceptAll with NamedSession := false }

/-- An engine that reports an existing session, accepts a destroy request and rejects
every other request. -/
def engineExistingRejectCreate : Engine :=
  { engineExistingAcceptAll with
    CreateSessionAccepted := false, FindSessionsAccepted := false,
    JoinSessionAccepted := false }

/-- An engine that reports an empty slot and rejects a create request. -/
def engineEmptyRejectCreate : Engine :=
  { engineExistingRejectCreate with NamedSession := false }

/-! ## Runs: consumer calls, completion notifications and engine changes -/

/-- One step of a run: the consumer calls an operation, the session interface delivers a
completion notification (for a find, after it has written the results into the search
object), or the engine changes its answers. -/
inductive Step
  | CreateSession (NumPublicConnections : Int) (MatchType : String)
  | FindSessions (MaxSearchResults : Int)
  | JoinSession (SessionResult : FOnlineSessionSearchResult)
  | DestroySession
  | StartSession
  | CreateSessionCompleted (bWasSuccessful : Bool)
  | FindSessionsCompleted (SearchResults : List FOnlineSessionSearchResult)
      (bWasSuccessful : Bool)
  | JoinSessionCompleted (Result : EOnJoinSessionCompleteResult)
  | DestroySessionCompleted (bWasSuccessful : Bool)
  | EngineChanges (e : Engine)
  deriving DecidableEq, Repr

/-- The kind of operation a step calls, for the steps made by the consumer. -/
def Step.calls : Step → Option OpKind
  | Step.CreateSession _ _ => some OpKind.create
  | Step.FindSessions _ => some OpKind.find
  | Step.JoinSession _ => some OpKind.join
  | Step.DestroySession => some OpKind.destroy
  | _ => none

/-- The kind of request a step completes, for the completion notifications. -/
def Step.completes : Step → Option OpKind
  | Step.CreateSessionCompleted _ => some OpKind.create
  | Step.FindSessionsCompleted _ _ => some OpKind.find
  | Step.JoinSessionCompleted _ => some OpKind.join
  | Step.DestroySessionCompleted _ => some OpKind.destroy
  | _ => none

/-- The session interface writes the results of a search into the search object it was
given (the object `LastSessionSearch` points to). -/
def World.deliverSearchResults (rs : List FOnlineSessionSearchResult) (w : World) : World :=
  { w with sub := { w.sub with
      LastSessionSearch :=
        w.sub.LastSessionSearch.map (fun search => { search with SearchResults := rs }) } }

/-- The effect of one step; `none` when the find callback reads a missing search object. -/
def Step.apply : Step → World → Option World
  | Step.CreateSession n m, w => some (MultiplayerSessions.CreateSession n m w)
  | Step.FindSessions k, w => some (MultiplayerSessions.FindSessions k w)
  | Step.JoinSession r, w => some (MultiplayerSessions.JoinSession r w)
  | Step.DestroySession, w => some (MultiplayerSessions.DestroySession w)
  | Step.StartSession, w => some (MultiplayerSessions.StartSession w)
  | Step.CreateSessionCompleted b, w => some (OnCreateSessionComplete NAME_GameSession b w)
  | Step.FindSessionsCompleted rs b, w => OnFindSessionsComplete b (w.deliverSearchResults rs)
  | Step.JoinSessionCompleted r, w => some (OnJoinSessionComplete NAME_GameSession r w)
  | Step.DestroySessionCompleted b, w => some (OnDestroySessionComplete NAME_GameSession b w)
  | Step.EngineChanges e, w => some (w.setEngine e)

/-- Whether an action is a request of the given kind that the session interface accepted. -/
def Action.isAcceptedRequest (k : OpKind) : Action → Bool
  | Action.CreateSession _ _ _ Accepted => k = OpKind.create && Accepted
  | Action.FindSessions _ _ Accepted => k = OpKind.find && Accepted
  | Action.JoinSession _ _ _ Accepted => k = OpKind.join && Accepted
  | Action.DestroySession _ Accepted => k = OpKind.destroy && Accepted
  | _ => false

/-- Number of accepted requests of a kind among some actions. -/
def acceptedRequests (k : OpKind) (l : List Action) : Nat :=
  l.countP (Action.isAcceptedRequest k)

/-- For each kind, the number of requests accepted by the session interface whose
completion notification has not been delivered yet. -/
structure Pending where
  create : Nat
  find : Nat
  join : Nat
  destroy : Nat
  deriving DecidableEq, Repr

/-- No request is unresolved. -/
def Pending.none : Pending :=
  { create := 0, find := 0, join := 0, destroy := 0 }

/-- Unresolved requests of one kind. -/
def Pending.get (p : Pending) : OpKind → Nat
  | OpKind.create => p.create
  | OpKind.find => p.find
  | OpKind.join => p.join
  | OpKind.destroy => p.destroy

/-- Number of requests of a kind that a step resolves. -/
def Step.resolved (s : Step) (k : OpKind) : Nat :=
  if s.completes = some k then 1 else 0

/-- Unresolved requests after a step that appended the actions `delta` to the trace: the
request completed by the step is resolved, the requests accepted during it are new. -/
def Pending.step (p : Pending) (s : Step) (delta : List Action) : Pending :=
  { create := p.create - s.resolved OpKind.create + acceptedRequests OpKind.create delta,
    find := p.find - s.resolved OpKind.find + acceptedRequests OpKind.find delta,
    join := p.join - s.resolved OpKind.join + acceptedRequests OpKind.join delta,
    destroy := p.destroy - s.resolved OpKind.destroy + acceptedRequests OpKind.destroy delta }

/-- Outcome of a run. -/
inductive Run
  | ok (w : World) (p : Pending)
  | refused
  | nullSearch
  deriving DecidableEq, Repr

/-- Run a list of steps under a calling discipline: `refused` when a step is not allowed
by the discipline, `nullSearch` when the find callback reads a missing search object. -/
def runSteps (allowed : Pending → World → Step → Bool) : List Step → World → Pending → Run
  | [], w, p => Run.ok w p
  | s :: rest, w, p =>
    if allowed p w s then
      match s.apply w with
      | Option.none => Run.nullSearch
      | some w' => runSteps allowed rest w' (p.step s (newActions w w'))
    else
      Run.refused

/-- The final world of a run that went through. -/
def Run.world? : Run → Option World
  | Run.ok w _ => some w
  | _ => Option.none

/-- The unresolved requests at the end of a run that went through. -/
def Run.pending? : Run → Option Pending
  | Run.ok _ p => some p
  | _ => Option.none

/-- Discipline of the session interface alone: a completion notification is delivered only
for a request that is unresolved. -/
def answersOnly (p : Pending) (_w : World) (s : Step) : Bool :=
  match s.completes with
  | some k => decide (0 < p.get k)
  | Option.none => true

/-- Discipline of the consumer: in addition, no operation is called while a request of its
kind is unresolved. -/
def oneAtATime (p : Pending) (w : World) (s : Step) : Bool :=
  answersOnly p w s &&
    match s.calls with
    | some k => decide (p.get k = 0)
    | Option.none => true

/-- Stricter discipline: in addition, `CreateSession` is called only while the slot is
empty. -/
def oneAtATimeEmptySlot (p : Pending) (w : World) (s : Step) : Bool :=
  oneAtATime p w s &&
    match s with
    | Step.CreateSession _ _ => !w.engine.NamedSession
    | _ => true

/-- What an action does to a delegate list: register a handle or clear one. -/
inductive DelegateOp
  | add (Handle : Nat)
  | clear (Handle : Nat)
  deriving DecidableEq, Repr

/-- What an action does to the delegate list of kind `k`, if anything. -/
def Action.delegateOp? (k : OpKind) : Action → Option DelegateOp
  | Action.AddDelegate k' h => if k' = k then some (DelegateOp.add h) else Option.none
  | Action.ClearDelegate k' h => if k' = k then some (DelegateOp.clear h) else Option.none
  | _ => Option.none

/-- The registrations and clears of kind `k` in a list of actions, in order. -/
def delegateOps (k : OpKind) (l : List Action) : List DelegateOp :=
  l.filterMap (Action.delegateOp? k)

/-- The handle registered by an operation on a delegate list. -/
def DelegateOp.added? : DelegateOp → Option Nat
  | DelegateOp.add h => some h
  | DelegateOp.clear _ => Option.none

/-- The handle passed to a clear of a delegate list. -/
def DelegateOp.cleared? : DelegateOp → Option Nat
  | DelegateOp.add _ => Option.none
  | DelegateOp.clear h => some h

/-- Handles registered, in order. -/
def addedOf (ops : List DelegateOp) : List Nat :=
  ops.filterMap DelegateOp.added?

/-- Handles passed to a clear, in order. -/
def clearedOf (ops : List DelegateOp) : List Nat :=
  ops.filterMap DelegateOp.cleared?

/-- Handles registered for a kind in a list of actions, in order. -/
def addedHandles (k : OpKind) (l : List Action) : List Nat :=
  addedOf (delegateOps k l)

/-- Handles passed to the clear call of a kind in a list of actions, in order. -/
def clearedHandles (k : OpKind) (l : List Action) : List Nat :=
  clearedOf (delegateOps k l)

/-- A delegate list after a registration or a clear (as `AddDelegate_Handle` and
`ClearDelegate_Handle` do it). -/
def DelegateOp.onList (reg : List Nat) : DelegateOp → List Nat
  | DelegateOp.add h => reg ++ [h]
  | DelegateOp.clear h => reg.filter (fun x => x != h)

/-- The delegate list after a sequence of registrations and clears, starting from `reg`. -/
def finalRegistered (reg : List Nat) (ops : List DelegateOp) : List Nat :=
  ops.foldl DelegateOp.onList reg

/-- The largest length the delegate list has at any moment while the registrations and
clears are performed one after the other, starting from the list `reg`. -/
def peakRegistered : List Nat → List DelegateOp → Nat
  | reg, [] => reg.length
  | reg, op :: rest => max reg.length (peakRegistered (op.onList reg) rest)

/-! ## The invariant of disciplined runs -/

/-- Invariant of one operation kind: delegate list `reg`, handle member `hdl`, next handle
`nxt`, the registrations and clears `ops` traced so far, `pend` unresolved requests. -/
structure KindInv (reg : List Nat) (hdl nxt : Nat) (ops : List DelegateOp) (pend : Nat) :
    Prop where
  pend_le : pend ≤ 1
  reg_eq : reg = if pend = 0 then [] else [hdl]
  paired : addedOf ops = clearedOf ops ++ reg
  fresh : ∀ h ∈ addedOf ops, h < nxt
  nodup : (addedOf ops).Nodup
  peak : peakRegistered [] ops ≤ 1
  final : finalRegistered [] ops = reg

/-- Invariant of a run in which no deferred create is ever armed. -/
structure RunInv (w : World) (p : Pending) : Prop where
  flag : w.sub.bCreateSessionOnDestroy = false
  idle : w.sub.SessionInterfaceValid = false → ∀ k, p.get k = 0
  kind : ∀ k, KindInv (w.delegates.get k) (w.sub.handle k) w.delegates.NextHandle
    (delegateOps k w.trace) (p.get k)

/-- What a request operation of kind `k0` does, as far as the invariant can tell: it
registers the next handle, stores it in the handle member and, when the request is
rejected (`acc = false`), clears it again. -/
structure RequestEffect (k0 : OpKind) (acc : Bool) (w w' : World) : Prop where
  ops : ∀ k, delegateOps k w'.trace = delegateOps k w.trace ++
    (if k = k0 then
      (if acc then [DelegateOp.add w.delegates.NextHandle]
       else [DelegateOp.add w.delegates.NextHandle, DelegateOp.clear w.delegates.NextHandle])
     else [])
  reg : ∀ k, w'.delegates.get k =
    if k = k0 then
      (if acc then w.delegates.get k ++ [w.delegates.NextHandle]
       else (w.delegates.get k ++ [w.delegates.NextHandle]).filter
        (fun x => x != w.delegates.NextHandle))
    else w.delegates.get k
  hdl : ∀ k, w'.sub.handle k = if k = k0 then w.delegates.NextHandle else w.sub.handle k
  next : w'.delegates.NextHandle = w.delegates.NextHandle + 1
  flag : w'.sub.bCreateSessionOnDestroy = w.sub.bCreateSessionOnDestroy
  valid : w'.sub.SessionInterfaceValid = w.sub.SessionInterfaceValid
  accepted : ∀ k, acceptedRequests k (newActions w w') = if k = k0 ∧ acc = true then 1 else 0

/-- What a completion callback of kind `k0` does when the session interface is valid: it
clears the handle stored in the handle member. -/
structure CompleteEffect (k0 : OpKind) (w w' : World) : Prop where
  ops : ∀ k, delegateOps k w'.trace = delegateOps k w.trace ++
    (if k = k0 then [DelegateOp.clear (w.sub.handle k0)] else [])
  reg : ∀ k, w'.delegates.get k =
    if k = k0 then (w.delegates.get k).filter (fun x => x != w.sub.handle k0)
    else w.delegates.get k
  hdl : ∀ k, w'.sub.handle k = w.sub.handle k
  next : w'.delegates.NextHandle = w.delegates.NextHandle
  flag : w'.sub.bCreateSessionOnDestroy = w.sub.bCreateSessionOnDestroy
  valid : w'.sub.SessionInterfaceValid = w.sub.SessionInterfaceValid
  accepted : ∀ k, acceptedRequests k (newActions w w') = 0

/-- A step that touches neither delegate lists nor handle members. -/
structure NoEffect (w w' : World) : Prop where
  ops : ∀ k, delegateOps k w'.trace = delegateOps k w.trace
  reg : w'.delegates = w.delegates
  hdl : ∀ k, w'.sub.handle k = w.sub.handle k
  flag : w'.sub.bCreateSessionOnDestroy = w.sub.bCreateSessionOnDestroy
  valid : w'.sub.SessionInterfaceValid = w.sub.SessionInterfaceValid
  accepted : ∀ k, acceptedRequests k (newActions w w') = 0

/-- Whether an event is the destroy-complete event with the given flag. -/
def Event.isDestroyComplete (b : Bool) : Event → Bool
  | Event.MultiplayerOnDestroySessionComplete b' => b' = b
  | _ => false

/-- Whether an event is a start-complete event. -/
def Event.isStartComplete : Event → Bool
  | Event.MultiplayerOnStartSessionComplete _ => true
  | _ => false

/-- Whether an action is a find request to the session interface. -/
def Action.isFindRequest : Action → Bool
  | Action.FindSessions _ _ _ => true
  | _ => false

/-- Whether an action is the synchronous lookup of the named session. -/
def Action.isLookup : Action → Bool
  | Action.GetNamedSession _ _ => true
  | _ => false

/-- The registrations, requests and clears among some actions: the calls on the session
interface other than the synchronous lookup. -/
def requestLog (l : List Action) : List Action :=
  l.filter (fun a => a.isBackendCall && !a.isLookup)

/-- A request of kind `k` rejected synchronously between `w` and `w'`: the request log is
registration, request, clear of the handle just registered; exactly the failure event is
broadcast; the handle just registered is not registered any more, and when no delegate of
the kind was registered before the call none is registered after it. -/
def RolledBack (k : OpKind) (request : Action) (failure : Event) (w w' : World) : Prop :=
  requestLog (newActions w w') =
    [Action.AddDelegate k w.delegates.NextHandle, request,
     Action.ClearDelegate k w.delegates.NextHandle] ∧
  events (newActions w w') = [failure] ∧
  w.delegates.NextHandle ∉ w'.delegates.get k ∧
  (w.delegates.get k = [] → w'.delegates.get k = [])

/-- Whether an action is a request of the given kind to the session interface. -/
def Action.isRequestOf (k : OpKind) : Action → Bool
  | Action.CreateSession _ _ _ _ => k = OpKind.create
  | Action.FindSessions _ _ _ => k = OpKind.find
  | Action.JoinSession _ _ _ _ => k = OpKind.join
  | Action.DestroySession _ _ => k = OpKind.destroy
  | _ => false

/-- Whether an action is a request (create, find, join or destroy) to the session
interface. -/
def Action.isRequest (a : Action) : Bool :=
  a.isRequestOf OpKind.create || a.isRequestOf OpKind.find || a.isRequestOf OpKind.join ||
    a.isRequestOf OpKind.destroy

/-- Whether an action is a request of the given kind that the session interface rejected. -/
def Action.isRejectedRequest (k : OpKind) : Action → Bool
  | Action.CreateSession _ _ _ Accepted => k = OpKind.create && !Accepted
  | Action.FindSessions _ _ Accepted => k = OpKind.find && !Accepted
  | Action.JoinSession _ _ _ Accepted => k = OpKind.join && !Accepted
  | Action.DestroySession _ Accepted => k = OpKind.destroy && !Accepted
  | _ => false

/-- The requests made after the first rejected request of kind `k` in a list of actions. -/
def requestsAfterRejected (k : OpKind) (l : List Action) : List Action :=
  ((l.dropWhile (fun a => !a.isRejectedRequest k)).drop 1).filter Action.isRequest

/-- Whether an event is the completion event of the given kind. -/
def Event.isCompleteOf (k : OpKind) : Event → Bool
  | Event.MultiplayerOnCreateSessionComplete _ => k = OpKind.create
  | Event.MultiplayerOnFindSessionsComplete _ _ => k = OpKind.find
  | Event.MultiplayerOnJoinSessionComplete _ => k = OpKind.join
  | Event.MultiplayerOnDestroySessionComplete _ => k = OpKind.destroy
  | Event.MultiplayerOnStartSessionComplete _ => false

/-- Between `w` and `w'` nothing of the create and destroy kinds happened: the deferred
create flag, the stash, the two handle members and the two delegate lists are unchanged,
no create or destroy request was made and no create-complete or destroy-complete event was
broadcast. -/
def LeavesCreateDestroyAlone (w w' : World) : Prop :=
  w'.sub.bCreateSessionOnDestroy = w.sub.bCreateSessionOnDestroy ∧
  w'.sub.LastNumPublicConnections = w.sub.LastNumPublicConnections ∧
  w'.sub.LastMatchType = w.sub.LastMatchType ∧
  w'.sub.CreateSessionCompleteDelegateHandle = w.sub.CreateSessionCompleteDelegateHandle ∧
  w'.sub.DestroySessionCompleteDelegateHandle = w.sub.DestroySessionCompleteDelegateHandle ∧
  w'.delegates.OnCreateSessionCompleteDelegates = w.delegates.OnCreateSessionCompleteDelegates ∧
  w'.delegates.OnDestroySessionCompleteDelegates =
    w.delegates.OnDestroySessionCompleteDelegates ∧
  (newActions w w').any (Action.isRequestOf OpKind.create) = false ∧
  (newActions w w').any (Action.isRequestOf OpKind.destroy) = false ∧
  (events (newActions w w')).any (Event.isCompleteOf OpKind.create) = false ∧
  (events (newActions w w')).any (Event.isCompleteOf OpKind.destroy) = false

/-- Invariant of the search object: it is set, or no find delegate is registered and no
find request is unresolved. -/
def FindInv (w : World) (p : Pending) : Prop :=
  w.sub.LastSessionSearch.isSome = true ∨
    (w.delegates.OnFindSessionsCompleteDelegates = [] ∧ p.find = 0)

/-! ## The menu widget (`UMenu`), as far as it drives the subsystem -/

/-- The world in which the destroy completion arrives in a create-after-destroy path:
`CreateSession n m` was called on `w` and the engine has moved on to the answers `e`. -/
def afterDeferredCreate (n : Int) (m : String) (w : World) (e : Engine) : World :=
  (CreateSession n m w).setEngine e

/-- The world in which the destroy completion arrives in a replacement cycle: a first
`CreateSession n1 m1` has completed, the engine has moved on to `e1`, a second
`CreateSession n2 m2` was called and the engine has moved on to `e2`. -/
def afterSecondCreate (n1 : Int) (m1 : String) (n2 : Int) (m2 : String) (w0 : World)
    (e1 e2 : Engine) : World :=
  afterDeferredCreate n2 m2
    ((OnCreateSessionComplete NAME_GameSession true (CreateSession n1 m1 w0)).setEngine e1) e2

/-- The world in which a destroy has failed after `CreateSession n m` armed the deferred
create: `CreateSession n m` was called on `w`, the engine moved on to `e1` and the destroy
callback ran with `false`. -/
def afterFailedDestroy (n : Int) (m : String) (w : World) (e1 : Engine) : World :=
  OnDestroySessionComplete NAME_GameSession false (afterDeferredCreate n m w e1)

/-- The world in which the completion of an unrelated destroy arrives: after the failed
destroy the engine moved on to `e2`, the consumer called `DestroySession` itself, and the
engine moved on to `e3`. -/
def afterUnrelatedDestroy (n : Int) (m : String) (w : World) (e1 e2 e3 : Engine) : World :=
  (DestroySession ((afterFailedDestroy n m w e1).setEngine e2)).setEngine e3

/-! ## Single operations: traces and members -/

/-- The trace of `CreateSession` when a session occupies the slot. -/
theorem CreateSession_existing_trace (n : Int) (m : String) (w : World)
    (hvalid : w.sub.SessionInterfaceValid = true) (hex : w.engine.NamedSession = true) :
    (CreateSession n m w).trace = w.trace ++
      ([Action.GetNamedSession NAME_GameSession true,
        Action.AddDelegate OpKind.destroy w.delegates.NextHandle,
        Action.DestroySession NAME_GameSession w.engine.DestroySessionAccepted] ++
       (if w.engine.DestroySessionAccepted then []
        else [Action.ClearDelegate OpKind.destroy w.delegates.NextHandle,
              Action.Broadcast (Event.MultiplayerOnDestroySessionComplete false)]) ++
       [Action.AddDelegate OpKind.create (w.delegates.NextHandle + 1),
        Action.CreateSession w.engine.PreferredUniqueNetId NAME_GameSession
          (buildSessionSettings w.engine.SubsystemName n m) w.engine.CreateSessionAccepted] ++
       (if w.engine.CreateSessionAccepted then []
        else [Action.ClearDelegate OpKind.create (w.delegates.NextHandle + 1),
              Action.Broadcast (Event.MultiplayerOnCreateSessionComplete false)])) := by
  cases hd : w.engine.DestroySessionAccepted <;> cases hc : w.engine.CreateSessionAccepted <;>
    simp [CreateSession, DestroySession, World.call, World.Broadcast, World.AddDelegate_Handle,
      World.ClearDelegate_Handle, hvalid, hex, hd, hc, DelegateLists.set, DelegateLists.get]

/-- The trace of `CreateSession` when the slot is empty. -/
theorem CreateSession_empty_trace (n : Int) (m : String) (w : World)
    (hvalid : w.sub.SessionInterfaceValid = true) (hex : w.engine.NamedSession = false) :
    (CreateSession n m w).trace = w.trace ++
      ([Action.GetNamedSession NAME_GameSession false,
        Action.AddDelegate OpKind.create w.delegates.NextHandle,
        Action.CreateSession w.engine.PreferredUniqueNetId NAME_GameSession
          (buildSessionSettings w.engine.SubsystemName n m) w.engine.CreateSessionAccepted] ++
       (if w.engine.CreateSessionAccepted then []
        else [Action.ClearDelegate OpKind.create w.delegates.NextHandle,
              Action.Broadcast (Event.MultiplayerOnCreateSessionComplete false)])) := by
  cases hc : w.engine.CreateSessionAccepted <;>
    simp [CreateSession, World.call, World.Broadcast, World.AddDelegate_Handle,
      World.ClearDelegate_Handle, hvalid, hex, hc, DelegateLists.set, DelegateLists.get]

/-- The deferred-create members after `CreateSession` found a session in the slot. -/
theorem CreateSession_existing_sub (n : Int) (m : String) (w : World)
    (hvalid : w.sub.SessionInterfaceValid = true) (hex : w.engine.NamedSession = true) :
    (CreateSession n m w).sub.bCreateSessionOnDestroy = true ∧
    (CreateSession n m w).sub.LastNumPublicConnections = n ∧
    (CreateSession n m w).sub.LastMatchType = m ∧
    (CreateSession n m w).sub.SessionInterfaceValid = true := by
  cases hd : w.engine.DestroySessionAccepted <;> cases hc : w.engine.CreateSessionAccepted <;>
    simp [CreateSession, DestroySession, World.call, World.Broadcast, World.AddDelegate_Handle,
      World.ClearDelegate_Handle, hvalid, hex, hd, hc, DelegateLists.set, DelegateLists.get]

/-- The operation `CreateSession` never changes the validity of the session interface. -/
theorem CreateSession_valid (n : Int) (m : String) (w : World) :
    (CreateSession n m w).sub.SessionInterfaceValid = w.sub.SessionInterfaceValid := by
  cases hv : w.sub.SessionInterfaceValid <;> cases hex : w.engine.NamedSession <;>
    cases hd : w.engine.DestroySessionAccepted <;> cases hc : w.engine.CreateSessionAccepted <;>
    simp [CreateSession, DestroySession, World.call, World.Broadcast, World.AddDelegate_Handle,
      World.ClearDelegate_Handle, hv, hex, hd, hc, DelegateLists.set, DelegateLists.get]

/-- The trace of the destroy callback when it resumes a deferred create on an empty slot. -/
theorem OnDestroySessionComplete_resume_trace (name : String) (w : World)
    (hvalid : w.sub.SessionInterfaceValid = true)
    (hflag : w.sub.bCreateSessionOnDestroy = true)
    (hex : w.engine.NamedSession = false) :
    (OnDestroySessionComplete name true w).trace = w.trace ++
      ([Action.ClearDelegate OpKind.destroy w.sub.DestroySessionCompleteDelegateHandle,
        Action.GetNamedSession NAME_GameSession false,
        Action.AddDelegate OpKind.create w.delegates.NextHandle,
        Action.CreateSession w.engine.PreferredUniqueNetId NAME_GameSession
          (buildSessionSettings w.engine.SubsystemName w.sub.LastNumPublicConnections
            w.sub.LastMatchType) w.engine.CreateSessionAccepted] ++
       (if w.engine.CreateSessionAccepted then []
        else [Action.ClearDelegate OpKind.create w.delegates.NextHandle,
              Action.Broadcast (Event.MultiplayerOnCreateSessionComplete false)]) ++
       [Action.Broadcast (Event.MultiplayerOnDestroySessionComplete true)]) := by
  cases hc : w.engine.CreateSessionAccepted <;>
    simp [OnDestroySessionComplete, CreateSession, World.call, World.Broadcast,
      World.AddDelegate_Handle, World.ClearDelegate_Handle, hvalid, hflag, hex, hc,
      DelegateLists.set, DelegateLists.get]

/-- The events of the destroy callback when a deferred create is pending, by the answers
of the engine to the follow-up create. -/
theorem OnDestroySessionComplete_resume_events (name : String) (w : World)
    (hvalid : w.sub.SessionInterfaceValid = true)
    (hflag : w.sub.bCreateSessionOnDestroy = true) :
    events (newActions w (OnDestroySessionComplete name true w)) =
      (if w.engine.NamedSession && !w.engine.DestroySessionAccepted
        then [Event.MultiplayerOnDestroySessionComplete false] else []) ++
      (if w.engine.CreateSessionAccepted then []
        else [Event.MultiplayerOnCreateSessionComplete false]) ++
      [Event.MultiplayerOnDestroySessionComplete true] := by
  cases hex : w.engine.NamedSession <;> cases hd : w.engine.DestroySessionAccepted <;>
    cases hc : w.engine.CreateSessionAccepted <;>
    simp [OnDestroySessionComplete, CreateSession, DestroySession, World.call, World.Broadcast,
      World.AddDelegate_Handle, World.ClearDelegate_Handle, hvalid, hflag, hex, hd, hc,
      DelegateLists.set, DelegateLists.get, newActions, events, Action.event?]

/-- The trace only grows: `CreateSession`. -/
theorem CreateSession_trace (n : Int) (m : String) (w : World) :
    (CreateSession n m w).trace = w.trace ++ newActions w (CreateSession n m w) := by
  cases hv : w.sub.SessionInterfaceValid <;> cases hex : w.engine.NamedSession <;>
    cases hd : w.engine.DestroySessionAccepted <;> cases hc : w.engine.CreateSessionAccepted <;>
    simp [newActions, CreateSession, DestroySession, World.call, World.Broadcast,
      World.AddDelegate_Handle, World.ClearDelegate_Handle, hv, hex, hd, hc]

/-- The trace only grows: `DestroySession`. -/
theorem DestroySession_trace (w : World) :
    (DestroySession w).trace = w.trace ++ newActions w (DestroySession w) := by
  cases hv : w.sub.SessionInterfaceValid <;> cases hd : w.engine.DestroySessionAccepted <;>
    simp [newActions, DestroySession, World.call, World.Broadcast,
      World.AddDelegate_Handle, World.ClearDelegate_Handle, hv, hd]

/-- The trace only grows: `FindSessions`. -/
theorem FindSessions_trace (k : Int) (w : World) :
    (FindSessions k w).trace = w.trace ++ newActions w (FindSessions k w) := by
  cases hv : w.sub.SessionInterfaceValid <;> cases hd : w.engine.FindSessionsAccepted <;>
    simp [newActions, FindSessions, World.call, World.Broadcast,
      World.AddDelegate_Handle, World.ClearDelegate_Handle, hv, hd]

/-- The trace only grows: `JoinSession`. -/
theorem JoinSession_trace (r : FOnlineSessionSearchResult) (w : World) :
    (JoinSession r w).trace = w.trace ++ newActions w (JoinSession r w) := by
  cases hv : w.sub.SessionInterfaceValid <;> cases hd : w.engine.JoinSessionAccepted <;>
    simp [newActions, JoinSession, World.call, World.Broadcast,
      World.AddDelegate_Handle, World.ClearDelegate_Handle, hv, hd]

/-- The trace only grows: `OnCreateSessionComplete`. -/
theorem OnCreateSessionComplete_trace (name : String) (b : Bool) (w : World) :
    (OnCreateSessionComplete name b w).trace =
      w.trace ++ newActions w (OnCreateSessionComplete name b w) := by
  cases hv : w.sub.SessionInterfaceValid <;>
    simp [newActions, OnCreateSessionComplete, World.Broadcast, World.ClearDelegate_Handle, hv]

/-- The trace only grows: `OnJoinSessionComplete`. -/
theorem OnJoinSessionComplete_trace (name : String) (r : EOnJoinSessionCompleteResult)
    (w : World) :
    (OnJoinSessionComplete name r w).trace =
      w.trace ++ newActions w (OnJoinSessionComplete name r w) := by
  cases hv : w.sub.SessionInterfaceValid <;>
    simp [newActions, OnJoinSessionComplete, World.Broadcast, World.ClearDelegate_Handle, hv]

/-- The trace only grows: `OnDestroySessionComplete`. -/
theorem OnDestroySessionComplete_trace (name : String) (b : Bool) (w : World) :
    (OnDestroySessionComplete name b w).trace =
      w.trace ++ newActions w (OnDestroySessionComplete name b w) := by
  cases b <;> cases hf : w.sub.bCreateSessionOnDestroy <;>
    cases hv : w.sub.SessionInterfaceValid <;> cases hex : w.engine.NamedSession <;>
    cases hd : w.engine.DestroySessionAccepted <;> cases hc : w.engine.CreateSessionAccepted <;>
    simp [newActions, OnDestroySessionComplete, CreateSession, DestroySession, World.call,
      World.Broadcast, World.AddDelegate_Handle, World.ClearDelegate_Handle, hf, hv, hex, hd, hc]

/-- The trace only grows: `OnFindSessionsComplete`, when it is defined. -/
theorem OnFindSessionsComplete_trace (b : Bool) (w w' : World)
    (h : OnFindSessionsComplete b w = some w') :
    w'.trace = w.trace ++ newActions w w' := by
  cases hs : w.sub.LastSessionSearch with
  | none =>
    cases hv : w.sub.SessionInterfaceValid <;>
      simp [OnFindSessionsComplete, World.ClearDelegate_Handle, hs, hv] at h
  | some search =>
    cases hv : w.sub.SessionInterfaceValid <;>
      by_cases hr : search.SearchResults = [] <;>
      simp [OnFindSessionsComplete, World.ClearDelegate_Handle, World.Broadcast, hs, hv, hr]
        at h <;>
      subst h <;> simp [newActions]

/-- New actions compose along an intermediate world. -/
theorem newActions_trans (w1 w2 w3 : World)
    (h12 : w2.trace = w1.trace ++ newActions w1 w2)
    (h23 : w3.trace = w2.trace ++ newActions w2 w3) :
    newActions w1 w3 = newActions w1 w2 ++ newActions w2 w3 := by
  have h : w3.trace = w1.trace ++ (newActions w1 w2 ++ newActions w2 w3) := by
    rw [h23, h12, List.append_assoc]
  conv_lhs => rw [newActions, h]
  simp

/-- The events of a concatenation. -/
theorem events_append (l1 l2 : List Action) : events (l1 ++ l2) = events l1 ++ events l2 := by
  simp [events]

/-- The create callback broadcasts exactly its flag. -/
theorem OnCreateSessionComplete_events (name : String) (b : Bool) (w : World) :
    events (newActions w (OnCreateSessionComplete name b w)) =
      [Event.MultiplayerOnCreateSessionComplete b] := by
  cases hv : w.sub.SessionInterfaceValid <;>
    simp [newActions, OnCreateSessionComplete, World.Broadcast, World.ClearDelegate_Handle, hv,
      events, Action.event?]

/-! ## Delegate lists along a trace -/

/-- The registrations and clears of a concatenation. -/
theorem delegateOps_append (k : OpKind) (l1 l2 : List Action) :
    delegateOps k (l1 ++ l2) = delegateOps k l1 ++ delegateOps k l2 := by
  simp [delegateOps]

/-- Registered handles of a concatenation. -/
theorem addedOf_append (o1 o2 : List DelegateOp) :
    addedOf (o1 ++ o2) = addedOf o1 ++ addedOf o2 := by
  simp [addedOf]

/-- Cleared handles of a concatenation. -/
theorem clearedOf_append (o1 o2 : List DelegateOp) :
    clearedOf (o1 ++ o2) = clearedOf o1 ++ clearedOf o2 := by
  simp [clearedOf]

/-- The delegate list after a concatenation. -/
theorem finalRegistered_append (reg : List Nat) (o1 o2 : List DelegateOp) :
    finalRegistered reg (o1 ++ o2) = finalRegistered (finalRegistered reg o1) o2 := by
  simp [finalRegistered]

/-- The peak over a concatenation is the larger of the two peaks. -/
theorem peakRegistered_append (reg : List Nat) (o1 o2 : List DelegateOp) :
    peakRegistered reg (o1 ++ o2) =
      max (peakRegistered reg o1) (peakRegistered (finalRegistered reg o1) o2) := by
  induction o1 generalizing reg with
  | nil =>
    cases o2 with
    | nil => simp [peakRegistered, finalRegistered]
    | cons op rest => simp [peakRegistered, finalRegistered]
  | cons op rest ih =>
    simp [peakRegistered, finalRegistered, ih, max_assoc]

/-- Registered handles of one registration. -/
theorem addedOf_add (h : Nat) : addedOf [DelegateOp.add h] = [h] := rfl

/-- Cleared handles of one registration. -/
theorem clearedOf_add (h : Nat) : clearedOf [DelegateOp.add h] = [] := rfl

/-- Registered handles of one clear. -/
theorem addedOf_clear (h : Nat) : addedOf [DelegateOp.clear h] = [] := rfl

/-- Cleared handles of one clear. -/
theorem clearedOf_clear (h : Nat) : clearedOf [DelegateOp.clear h] = [h] := rfl

/-- Registered handles of a registration rolled back. -/
theorem addedOf_add_clear (h h' : Nat) :
    addedOf [DelegateOp.add h, DelegateOp.clear h'] = [h] := rfl

/-- Cleared handles of a registration rolled back. -/
theorem clearedOf_add_clear (h h' : Nat) :
    clearedOf [DelegateOp.add h, DelegateOp.clear h'] = [h'] := rfl

/-- The invariant of a kind holds before anything happened. -/
theorem KindInv_init (hdl nxt : Nat) : KindInv [] hdl nxt [] 0 := by
  constructor <;> simp [addedOf, clearedOf, peakRegistered, finalRegistered]

/-- An accepted request keeps the invariant of its kind. -/
theorem KindInv_accept {reg : List Nat} {hdl nxt : Nat} {ops : List DelegateOp}
    (h : KindInv reg hdl nxt ops 0) :
    KindInv (reg ++ [nxt]) nxt (nxt + 1) (ops ++ [DelegateOp.add nxt]) 1 := by
  have hreg : reg = [] := by simpa using h.reg_eq
  subst hreg
  have hp := h.paired
  simp at hp
  constructor
  · exact le_refl 1
  · simp
  · rw [addedOf_append, clearedOf_append, hp]
    simp [addedOf_add, clearedOf_add, addedOf_add_clear, clearedOf_add_clear]
  · intro x hx
    simp [addedOf_append, addedOf, DelegateOp.added?] at hx
    rcases hx with hx | hx
    · have := h.fresh x (by simpa [addedOf] using hx)
      omega
    · omega
  · rw [addedOf_append, List.nodup_append]
    refine ⟨h.nodup, by simp [addedOf, DelegateOp.added?], ?_⟩
    intro a ha hb
    simp [addedOf, DelegateOp.added?] at hb
    have := h.fresh a ha
    omega
  · rw [peakRegistered_append, h.final]
    have := h.peak
    simp [peakRegistered, DelegateOp.onList]
    exact this
  · rw [finalRegistered_append, h.final]
    simp [finalRegistered, DelegateOp.onList]

/-- A rejected request keeps the invariant of its kind. -/
theorem KindInv_reject {reg : List Nat} {hdl nxt : Nat} {ops : List DelegateOp}
    (h : KindInv reg hdl nxt ops 0) :
    KindInv ((reg ++ [nxt]).filter (fun x => x != nxt)) nxt (nxt + 1)
      (ops ++ [DelegateOp.add nxt, DelegateOp.clear nxt]) 0 := by
  have hreg : reg = [] := by simpa using h.reg_eq
  subst hreg
  have hp := h.paired
  simp at hp
  constructor
  · exact Nat.zero_le 1
  · simp
  · rw [addedOf_append, clearedOf_append, hp]
    simp [addedOf_add, clearedOf_add, addedOf_add_clear, clearedOf_add_clear]
  · intro x hx
    simp [addedOf_append, addedOf, DelegateOp.added?] at hx
    rcases hx with hx | hx
    · have := h.fresh x (by simpa [addedOf] using hx)
      omega
    · omega
  · rw [addedOf_append, List.nodup_append]
    refine ⟨h.nodup, by simp [addedOf, DelegateOp.added?], ?_⟩
    intro a ha hb
    simp [addedOf, DelegateOp.added?] at hb
    have := h.fresh a ha
    omega
  · rw [peakRegistered_append, h.final]
    have := h.peak
    simp [peakRegistered, DelegateOp.onList]
    exact this
  · rw [finalRegistered_append, h.final]
    simp [finalRegistered, DelegateOp.onList]

/-- The completion of the unresolved request keeps the invariant of its kind. -/
theorem KindInv_complete {reg : List Nat} {hdl nxt : Nat} {ops : List DelegateOp} {pend : Nat}
    (h : KindInv reg hdl nxt ops pend) (hpos : 0 < pend) :
    KindInv (reg.filter (fun x => x != hdl)) hdl nxt (ops ++ [DelegateOp.clear hdl])
      (pend - 1) := by
  have hone : pend = 1 := by have := h.pend_le; omega
  subst hone
  have hreg : reg = [hdl] := by simpa using h.reg_eq
  subst hreg
  constructor
  · omega
  · simp
  · rw [addedOf_append, clearedOf_append, h.paired]
    simp [addedOf_clear, clearedOf_clear]
  · intro x hx
    simp [addedOf_append, addedOf, DelegateOp.added?] at hx
    exact h.fresh x (by simpa [addedOf] using hx)
  · simpa [addedOf_append, addedOf, DelegateOp.added?] using h.nodup
  · rw [peakRegistered_append, h.final]
    have := h.peak
    simp [peakRegistered, DelegateOp.onList]
    exact this
  · rw [finalRegistered_append, h.final]
    simp [finalRegistered, DelegateOp.onList]

/-- Handing out handles to other kinds keeps the invariant of a kind. -/
theorem KindInv_bump {reg : List Nat} {hdl nxt nxt' : Nat} {ops : List DelegateOp} {pend : Nat}
    (h : KindInv reg hdl nxt ops pend) (hle : nxt ≤ nxt') :
    KindInv reg hdl nxt' ops pend :=
  { h with fresh := fun x hx => Nat.lt_of_lt_of_le (h.fresh x hx) hle }

/-! ## Steps keep the invariant -/

/-- Unresolved requests of one kind after a step. -/
theorem Pending_step_get (p : Pending) (s : Step) (delta : List Action) (k : OpKind) :
    (p.step s delta).get k = p.get k - s.resolved k + acceptedRequests k delta := by
  cases k <;> rfl

/-- A request operation called while no request of its kind is unresolved keeps the
invariant. -/
theorem RunInv_request {k0 : OpKind} {acc : Bool} {w w' : World} {p : Pending} {s : Step}
    (h : RunInv w p) (he : RequestEffect k0 acc w w') (hs : s.completes = Option.none)
    (hfree : p.get k0 = 0) (hvalid : w.sub.SessionInterfaceValid = true) :
    RunInv w' (p.step s (newActions w w')) := by
  refine ⟨by rw [he.flag]; exact h.flag, ?_, ?_⟩
  · intro hv
    rw [he.valid, hvalid] at hv
    cases hv
  · intro k
    have hk := h.kind k
    rw [Pending_step_get, he.accepted k, he.ops k, he.reg k, he.hdl k, he.next]
    have hres : s.resolved k = 0 := by simp [Step.resolved, hs]
    rw [hres]
    by_cases hkk : k = k0
    · subst hkk
      rw [hfree] at hk
      cases acc with
      | true => simpa [hfree] using KindInv_accept hk
      | false => simpa [hfree] using KindInv_reject hk
    · simpa [hkk] using KindInv_bump hk (Nat.le_succ _)

/-- The completion callback of a kind with an unresolved request keeps the invariant. -/
theorem RunInv_complete {k0 : OpKind} {w w' : World} {p : Pending} {s : Step}
    (h : RunInv w p) (he : CompleteEffect k0 w w') (hs : s.completes = some k0)
    (hpos : 0 < p.get k0) :
    RunInv w' (p.step s (newActions w w')) := by
  refine ⟨by rw [he.flag]; exact h.flag, ?_, ?_⟩
  · intro hv k
    rw [he.valid] at hv
    rw [Pending_step_get, he.accepted k, h.idle hv k]
    omega
  · intro k
    have hk := h.kind k
    rw [Pending_step_get, he.accepted k, he.ops k, he.reg k, he.hdl k, he.next]
    by_cases hkk : k = k0
    · subst hkk
      have hres : s.resolved k = 1 := by simp [Step.resolved, hs]
      rw [hres]
      simpa using KindInv_complete hk hpos
    · have hres : s.resolved k = 0 := by
        simp only [Step.resolved, hs]
        rw [if_neg]
        intro hh
        exact hkk (Option.some.inj hh).symm
      rw [hres]
      simpa [hkk] using hk

/-- A step without effect on delegate lists and handles keeps the invariant. -/
theorem RunInv_noEffect {w w' : World} {p : Pending} {s : Step}
    (h : RunInv w p) (he : NoEffect w w') (hs : s.completes = Option.none) :
    RunInv w' (p.step s (newActions w w')) := by
  refine ⟨by rw [he.flag]; exact h.flag, ?_, ?_⟩
  · intro hv k
    rw [he.valid] at hv
    rw [Pending_step_get, he.accepted k, h.idle hv k]
    omega
  · intro k
    have hk := h.kind k
    have hres : s.resolved k = 0 := by simp [Step.resolved, hs]
    rw [Pending_step_get, he.accepted k, he.ops k, he.reg, he.hdl k, hres]
    simpa using hk

/-! ## What each operation does to delegate lists and handles -/

/-- The operation `CreateSession` on an empty slot is a request of kind create. -/
theorem CreateSession_effect (n : Int) (m : String) (w : World)
    (hvalid : w.sub.SessionInterfaceValid = true) (hex : w.engine.NamedSession = false) :
    RequestEffect OpKind.create w.engine.CreateSessionAccepted w (CreateSession n m w) := by
  constructor <;> (try intro k) <;> (try cases k) <;>
    cases hc : w.engine.CreateSessionAccepted <;>
    simp [CreateSession, World.call, World.Broadcast, World.AddDelegate_Handle,
      World.ClearDelegate_Handle, hvalid, hex, hc, DelegateLists.set, DelegateLists.get,
      delegateOps, Action.delegateOp?, Subsystem.handle, newActions, acceptedRequests,
      Action.isAcceptedRequest]

/-- The operation `FindSessions` is a request of kind find. -/
theorem FindSessions_effect (n : Int) (w : World)
    (hvalid : w.sub.SessionInterfaceValid = true) :
    RequestEffect OpKind.find w.engine.FindSessionsAccepted w (FindSessions n w) := by
  constructor <;> (try intro k) <;> (try cases k) <;>
    cases hc : w.engine.FindSessionsAccepted <;>
    simp [FindSessions, World.call, World.Broadcast, World.AddDelegate_Handle,
      World.ClearDelegate_Handle, hvalid, hc, DelegateLists.set, DelegateLists.get,
      delegateOps, Action.delegateOp?, Subsystem.handle, newActions, acceptedRequests,
      Action.isAcceptedRequest]

/-- The operation `JoinSession` is a request of kind join. -/
theorem JoinSession_effect (r : FOnlineSessionSearchResult) (w : World)
    (hvalid : w.sub.SessionInterfaceValid = true) :
    RequestEffect OpKind.join w.engine.JoinSessionAccepted w (JoinSession r w) := by
  constructor <;> (try intro k) <;> (try cases k) <;>
    cases hc : w.engine.JoinSessionAccepted <;>
    simp [JoinSession, World.call, World.Broadcast, World.AddDelegate_Handle,
      World.ClearDelegate_Handle, hvalid, hc, DelegateLists.set, DelegateLists.get,
      delegateOps, Action.delegateOp?, Subsystem.handle, newActions, acceptedRequests,
      Action.isAcceptedRequest]

/-- The operation `DestroySession` is a request of kind destroy. -/
theorem DestroySession_effect (w : World)
    (hvalid : w.sub.SessionInterfaceValid = true) :
    RequestEffect OpKind.destroy w.engine.DestroySessionAccepted w (DestroySession w) := by
  constructor <;> (try intro k) <;> (try cases k) <;>
    cases hc : w.engine.DestroySessionAccepted <;>
    simp [DestroySession, World.call, World.Broadcast, World.AddDelegate_Handle,
      World.ClearDelegate_Handle, hvalid, hc, DelegateLists.set, DelegateLists.get,
      delegateOps, Action.delegateOp?, Subsystem.handle, newActions, acceptedRequests,
      Action.isAcceptedRequest]

/-- Without a session interface `CreateSession` does nothing to the delegate lists. -/
theorem CreateSession_invalid_effect (n : Int) (m : String) (w : World)
    (hinvalid : w.sub.SessionInterfaceValid = false) :
    NoEffect w (CreateSession n m w) := by
  constructor <;> (try intro k) <;>
    simp [CreateSession, hinvalid, newActions, acceptedRequests]

/-- Without a session interface `FindSessions` does nothing to the delegate lists. -/
theorem FindSessions_invalid_effect (n : Int) (w : World)
    (hinvalid : w.sub.SessionInterfaceValid = false) :
    NoEffect w (FindSessions n w) := by
  constructor <;> (try intro k) <;>
    simp [FindSessions, hinvalid, newActions, acceptedRequests]

/-- Without a session interface `JoinSession` does nothing to the delegate lists. -/
theorem JoinSession_invalid_effect (r : FOnlineSessionSearchResult) (w : World)
    (hinvalid : w.sub.SessionInterfaceValid = false) :
    NoEffect w (JoinSession r w) := by
  constructor <;> (try intro k) <;>
    simp [JoinSession, World.Broadcast, hinvalid, newActions, acceptedRequests,
      Action.isAcceptedRequest, delegateOps, Action.delegateOp?]

/-- Without a session interface `DestroySession` does nothing to the delegate lists. -/
theorem DestroySession_invalid_effect (w : World)
    (hinvalid : w.sub.SessionInterfaceValid = false) :
    NoEffect w (DestroySession w) := by
  constructor <;> (try intro k) <;>
    simp [DestroySession, World.Broadcast, hinvalid, newActions, acceptedRequests,
      Action.isAcceptedRequest, delegateOps, Action.delegateOp?]

/-- A change of the engine answers does nothing to the delegate lists. -/
theorem setEngine_effect (e : Engine) (w : World) : NoEffect w (w.setEngine e) := by
  constructor <;> (try intro k) <;> simp [World.setEngine, newActions, acceptedRequests]

/-- The operation `StartSession` does nothing to the delegate lists. -/
theorem StartSession_effect (w : World) : NoEffect w (StartSession w) := by
  constructor <;> (try intro k) <;> simp [StartSession, newActions, acceptedRequests]

/-- The create callback clears the create handle. -/
theorem OnCreateSessionComplete_effect (name : String) (b : Bool) (w : World)
    (hvalid : w.sub.SessionInterfaceValid = true) :
    CompleteEffect OpKind.create w (OnCreateSessionComplete name b w) := by
  constructor <;> (try intro k) <;> (try cases k) <;>
    simp [OnCreateSessionComplete, World.Broadcast, World.ClearDelegate_Handle, hvalid,
      DelegateLists.set, DelegateLists.get, delegateOps, Action.delegateOp?, Subsystem.handle,
      newActions, acceptedRequests, Action.isAcceptedRequest]

/-- The join callback clears the join handle. -/
theorem OnJoinSessionComplete_effect (name : String) (r : EOnJoinSessionCompleteResult)
    (w : World) (hvalid : w.sub.SessionInterfaceValid = true) :
    CompleteEffect OpKind.join w (OnJoinSessionComplete name r w) := by
  constructor <;> (try intro k) <;> (try cases k) <;>
    simp [OnJoinSessionComplete, World.Broadcast, World.ClearDelegate_Handle, hvalid,
      DelegateLists.set, DelegateLists.get, delegateOps, Action.delegateOp?, Subsystem.handle,
      newActions, acceptedRequests, Action.isAcceptedRequest]

/-- The destroy callback clears the destroy handle, when no deferred create is armed. -/
theorem OnDestroySessionComplete_effect (name : String) (b : Bool) (w : World)
    (hvalid : w.sub.SessionInterfaceValid = true)
    (hflag : w.sub.bCreateSessionOnDestroy = false) :
    CompleteEffect OpKind.destroy w (OnDestroySessionComplete name b w) := by
  constructor <;> (try intro k) <;> (try cases k) <;>
    simp [OnDestroySessionComplete, World.Broadcast, World.ClearDelegate_Handle, hvalid, hflag,
      DelegateLists.set, DelegateLists.get, delegateOps, Action.delegateOp?, Subsystem.handle,
      newActions, acceptedRequests, Action.isAcceptedRequest]

/-- The find callback, run after the results were delivered, clears the find handle. -/
theorem OnFindSessionsComplete_effect (rs : List FOnlineSessionSearchResult) (b : Bool)
    (w w' : World) (hvalid : w.sub.SessionInterfaceValid = true)
    (h : OnFindSessionsComplete b (w.deliverSearchResults rs) = some w') :
    CompleteEffect OpKind.find w w' := by
  cases hs : w.sub.LastSessionSearch with
  | none =>
    simp [OnFindSessionsComplete, World.deliverSearchResults, World.ClearDelegate_Handle, hs,
      hvalid] at h
  | some search =>
    by_cases hr : rs = []
    · simp [OnFindSessionsComplete, World.deliverSearchResults, World.ClearDelegate_Handle,
        World.Broadcast, hs, hvalid, hr] at h
      subst h
      constructor <;> (try intro k) <;> (try cases k) <;>
        simp [DelegateLists.set, DelegateLists.get, delegateOps, Action.delegateOp?,
          Subsystem.handle, newActions, acceptedRequests, Action.isAcceptedRequest, hvalid]
    · simp [OnFindSessionsComplete, World.deliverSearchResults, World.ClearDelegate_Handle,
        World.Broadcast, hs, hvalid, hr] at h
      subst h
      constructor <;> (try intro k) <;> (try cases k) <;>
        simp [DelegateLists.set, DelegateLists.get, delegateOps, Action.delegateOp?,
          Subsystem.handle, newActions, acceptedRequests, Action.isAcceptedRequest, hvalid]

/-! ## Disciplined runs -/

/-- An unresolved request implies a valid session interface. -/
theorem RunInv_valid_of_pending {w : World} {p : Pending} (h : RunInv w p) {k : OpKind}
    (hpos : 0 < p.get k) : w.sub.SessionInterfaceValid = true := by
  cases hv : w.sub.SessionInterfaceValid with
  | true => rfl
  | false =>
    have := h.idle hv k
    omega

/-- Every step allowed by the stricter discipline keeps the invariant. -/
theorem Step_keeps_inv (s : Step) (w w' : World) (p : Pending) (h : RunInv w p)
    (hallowed : oneAtATimeEmptySlot p w s = true) (happly : s.apply w = some w') :
    RunInv w' (p.step s (newActions w w')) := by
  cases s with
  | CreateSession n m =>
    simp [Step.apply] at happly
    subst happly
    simp [oneAtATimeEmptySlot, oneAtATime, answersOnly, Step.calls, Step.completes] at hallowed
    cases hv : w.sub.SessionInterfaceValid with
    | true => exact RunInv_request h (CreateSession_effect n m w hv hallowed.2) rfl hallowed.1 hv
    | false => exact RunInv_noEffect h (CreateSession_invalid_effect n m w hv) rfl
  | FindSessions n =>
    simp [Step.apply] at happly
    subst happly
    simp [oneAtATimeEmptySlot, oneAtATime, answersOnly, Step.calls, Step.completes] at hallowed
    cases hv : w.sub.SessionInterfaceValid with
    | true => exact RunInv_request h (FindSessions_effect n w hv) rfl hallowed hv
    | false => exact RunInv_noEffect h (FindSessions_invalid_effect n w hv) rfl
  | JoinSession r =>
    simp [Step.apply] at happly
    subst happly
    simp [oneAtATimeEmptySlot, oneAtATime, answersOnly, Step.calls, Step.completes] at hallowed
    cases hv : w.sub.SessionInterfaceValid with
    | true => exact RunInv_request h (JoinSession_effect r w hv) rfl hallowed hv
    | false => exact RunInv_noEffect h (JoinSession_invalid_effect r w hv) rfl
  | DestroySession =>
    simp [Step.apply] at happly
    subst happly
    simp [oneAtATimeEmptySlot, oneAtATime, answersOnly, Step.calls, Step.completes] at hallowed
    cases hv : w.sub.SessionInterfaceValid with
    | true => exact RunInv_request h (DestroySession_effect w hv) rfl hallowed hv
    | false => exact RunInv_noEffect h (DestroySession_invalid_effect w hv) rfl
  | StartSession =>
    simp [Step.apply] at happly
    subst happly
    exact RunInv_noEffect h (StartSession_effect w) rfl
  | CreateSessionCompleted b =>
    simp [Step.apply] at happly
    subst happly
    simp [oneAtATimeEmptySlot, oneAtATime, answersOnly, Step.calls, Step.completes] at hallowed
    exact RunInv_complete h
      (OnCreateSessionComplete_effect NAME_GameSession b w (RunInv_valid_of_pending h hallowed)) rfl
      hallowed
  | FindSessionsCompleted rs b =>
    simp [Step.apply] at happly
    simp [oneAtATimeEmptySlot, oneAtATime, answersOnly, Step.calls, Step.completes] at hallowed
    exact RunInv_complete h
      (OnFindSessionsComplete_effect rs b w w' (RunInv_valid_of_pending h hallowed) happly) rfl
      hallowed
  | JoinSessionCompleted r =>
    simp [Step.apply] at happly
    subst happly
    simp [oneAtATimeEmptySlot, oneAtATime, answersOnly, Step.calls, Step.completes] at hallowed
    exact RunInv_complete h
      (OnJoinSessionComplete_effect NAME_GameSession r w (RunInv_valid_of_pending h hallowed)) rfl
      hallowed
  | DestroySessionCompleted b =>
    simp [Step.apply] at happly
    subst happly
    simp [oneAtATimeEmptySlot, oneAtATime, answersOnly, Step.calls, Step.completes] at hallowed
    exact RunInv_complete h
      (OnDestroySessionComplete_effect NAME_GameSession b w (RunInv_valid_of_pending h hallowed)
        h.flag) rfl hallowed
  | EngineChanges e =>
    simp [Step.apply] at happly
    subst happly
    exact RunInv_noEffect h (setEngine_effect e w) rfl

/-- The invariant holds right after construction. -/
theorem RunInv_init (valid : Bool) (e : Engine) : RunInv (World.init valid e) Pending.none := by
  refine ⟨rfl, ?_, ?_⟩
  · intro _ k
    cases k <;> rfl
  · intro k
    cases k <;> exact KindInv_init _ _

/-- The invariant holds at the end of every run under the stricter discipline. -/
theorem runSteps_keeps_inv (steps : List Step) (w w' : World) (p p' : Pending)
    (h : RunInv w p) (hrun : runSteps oneAtATimeEmptySlot steps w p = Run.ok w' p') :
    RunInv w' p' := by
  induction steps generalizing w p with
  | nil =>
    simp [runSteps] at hrun
    rw [← hrun.1, ← hrun.2]
    exact h
  | cons s rest ih =>
    rw [runSteps] at hrun
    cases ha : oneAtATimeEmptySlot p w s with
    | false => simp [ha] at hrun
    | true =>
      cases hap : s.apply w with
      | none => simp [ha, hap] at hrun
      | some w1 =>
        simp [ha, hap] at hrun
        exact ih w1 _ (Step_keeps_inv s w w1 p h ha hap) hrun

/-! ## No step broadcasts a start-complete event -/

/-- Every step only appends to the trace. -/
theorem Step_apply_trace (s : Step) (w w' : World) (h : s.apply w = some w') :
    w'.trace = w.trace ++ newActions w w' := by
  cases s with
  | CreateSession n m =>
    simp [Step.apply] at h; subst h; exact CreateSession_trace n m w
  | FindSessions k =>
    simp [Step.apply] at h; subst h; exact FindSessions_trace k w
  | JoinSession r =>
    simp [Step.apply] at h; subst h; exact JoinSession_trace r w
  | DestroySession =>
    simp [Step.apply] at h; subst h; exact DestroySession_trace w
  | StartSession =>
    simp [Step.apply, MultiplayerSessions.StartSession] at h; subst h; simp [newActions]
  | CreateSessionCompleted b =>
    simp [Step.apply] at h; subst h; exact OnCreateSessionComplete_trace _ b w
  | FindSessionsCompleted rs b =>
    simp [Step.apply] at h
    have := OnFindSessionsComplete_trace b _ w' h
    simpa [World.deliverSearchResults, newActions] using this
  | JoinSessionCompleted r =>
    simp [Step.apply] at h; subst h; exact OnJoinSessionComplete_trace _ r w
  | DestroySessionCompleted b =>
    simp [Step.apply] at h; subst h; exact OnDestroySessionComplete_trace _ b w
  | EngineChanges e =>
    simp [Step.apply] at h; subst h; simp [World.setEngine, newActions]

/-- No step broadcasts a start-complete event. -/
theorem Step_apply_no_start (s : Step) (w w' : World) (h : s.apply w = some w') :
    (events (newActions w w')).any Event.isStartComplete = false := by
  cases s with
  | CreateSession n m =>
    simp [Step.apply] at h; subst h
    cases hv : w.sub.SessionInterfaceValid <;> cases hex : w.engine.NamedSession <;>
      cases hd : w.engine.DestroySessionAccepted <;>
      cases hc : w.engine.CreateSessionAccepted <;>
      simp [newActions, CreateSession, DestroySession, World.call, World.Broadcast,
        World.AddDelegate_Handle, World.ClearDelegate_Handle, hv, hex, hd, hc, events,
        Action.event?, Event.isStartComplete]
  | FindSessions k =>
    simp [Step.apply] at h; subst h
    cases hv : w.sub.SessionInterfaceValid <;> cases hc : w.engine.FindSessionsAccepted <;>
      simp [newActions, FindSessions, World.call, World.Broadcast, World.AddDelegate_Handle,
        World.ClearDelegate_Handle, hv, hc, events, Action.event?, Event.isStartComplete]
  | JoinSession r =>
    simp [Step.apply] at h; subst h
    cases hv : w.sub.SessionInterfaceValid <;> cases hc : w.engine.JoinSessionAccepted <;>
      simp [newActions, JoinSession, World.call, World.Broadcast, World.AddDelegate_Handle,
        World.ClearDelegate_Handle, hv, hc, events, Action.event?, Event.isStartComplete]
  | DestroySession =>
    simp [Step.apply] at h; subst h
    cases hv : w.sub.SessionInterfaceValid <;> cases hc : w.engine.DestroySessionAccepted <;>
      simp [newActions, DestroySession, World.call, World.Broadcast, World.AddDelegate_Handle,
        World.ClearDelegate_Handle, hv, hc, events, Action.event?, Event.isStartComplete]
  | StartSession =>
    simp [Step.apply, MultiplayerSessions.StartSession] at h; subst h
    simp [newActions, events]
  | CreateSessionCompleted b =>
    simp [Step.apply] at h; subst h
    cases hv : w.sub.SessionInterfaceValid <;>
      simp [newActions, OnCreateSessionComplete, World.Broadcast, World.ClearDelegate_Handle,
        hv, events, Action.event?, Event.isStartComplete]
  | FindSessionsCompleted rs b =>
    simp [Step.apply] at h
    cases hs : w.sub.LastSessionSearch with
    | none =>
      cases hv : w.sub.SessionInterfaceValid <;>
        simp [OnFindSessionsComplete, World.deliverSearchResults, World.ClearDelegate_Handle,
          hs, hv] at h
    | some search =>
      cases hv : w.sub.SessionInterfaceValid <;> by_cases hr : rs = [] <;>
        simp [OnFindSessionsComplete, World.deliverSearchResults, World.ClearDelegate_Handle,
          World.Broadcast, hs, hv, hr] at h <;>
        subst h <;>
        simp [newActions, events, Action.event?, Event.isStartComplete]
  | JoinSessionCompleted r =>
    simp [Step.apply] at h; subst h
    cases hv : w.sub.SessionInterfaceValid <;>
      simp [newActions, OnJoinSessionComplete, World.Broadcast, World.ClearDelegate_Handle,
        hv, events, Action.event?, Event.isStartComplete]
  | DestroySessionCompleted b =>
    simp [Step.apply] at h; subst h
    cases b <;> cases hf : w.sub.bCreateSessionOnDestroy <;>
      cases hv : w.sub.SessionInterfaceValid <;> cases hex : w.engine.NamedSession <;>
      cases hd : w.engine.DestroySessionAccepted <;>
      cases hc : w.engine.CreateSessionAccepted <;>
      simp [newActions, OnDestroySessionComplete, CreateSession, DestroySession, World.call,
        World.Broadcast, World.AddDelegate_Handle, World.ClearDelegate_Handle, hf, hv, hex, hd,
        hc, events, Action.event?, Event.isStartComplete]
  | EngineChanges e =>
    simp [Step.apply] at h; subst h
    simp [World.setEngine, newActions, events]

/-- A run only appends to the trace and appends no start-complete event, under any
discipline. -/
theorem runSteps_no_start (allowed : Pending → World → Step → Bool) (steps : List Step)
    (w w' : World) (p p' : Pending) (hrun : runSteps allowed steps w p = Run.ok w' p') :
    w'.trace = w.trace ++ newActions w w' ∧
    (events (newActions w w')).any Event.isStartComplete = false := by
  induction steps generalizing w p with
  | nil =>
    simp [runSteps] at hrun
    rw [← hrun.1]
    simp [newActions, events]
  | cons s rest ih =>
    rw [runSteps] at hrun
    cases ha : allowed p w s with
    | false => simp [ha] at hrun
    | true =>
      cases hap : s.apply w with
      | none => simp [ha, hap] at hrun
      | some w1 =>
        simp [ha, hap] at hrun
        have h1 := Step_apply_trace s w w1 hap
        have h2 := Step_apply_no_start s w w1 hap
        have h3 := ih w1 _ hrun
        have hcomp := newActions_trans w w1 w' h1 h3.1
        refine ⟨?_, ?_⟩
        · rw [hcomp, h3.1, h1, List.append_assoc]
        · rw [hcomp, events_append, List.any_append, h2, h3.2]
          rfl

/-! ## The deferred create across destroy completions -/

/-- A destroy callback with flag `false` changes no member of the subsystem. -/
theorem OnDestroySessionComplete_false_sub (name : String) (w : World) :
    (OnDestroySessionComplete name false w).sub = w.sub := by
  cases hv : w.sub.SessionInterfaceValid <;>
    simp [OnDestroySessionComplete, World.Broadcast, World.ClearDelegate_Handle, hv]

/-- The operation `DestroySession` changes neither the deferred create members nor the
validity of the session interface. -/
theorem DestroySession_deferred (w : World) :
    (DestroySession w).sub.bCreateSessionOnDestroy = w.sub.bCreateSessionOnDestroy ∧
    (DestroySession w).sub.LastNumPublicConnections = w.sub.LastNumPublicConnections ∧
    (DestroySession w).sub.LastMatchType = w.sub.LastMatchType ∧
    (DestroySession w).sub.SessionInterfaceValid = w.sub.SessionInterfaceValid := by
  cases hv : w.sub.SessionInterfaceValid <;> cases hd : w.engine.DestroySessionAccepted <;>
    simp [DestroySession, World.call, World.Broadcast, World.AddDelegate_Handle,
      World.ClearDelegate_Handle, hv, hd]

/-- The create requests of a successful destroy callback with a deferred create armed:
exactly one, built from the stash. -/
theorem OnDestroySessionComplete_resume_requests (name : String) (w : World)
    (hvalid : w.sub.SessionInterfaceValid = true)
    (hflag : w.sub.bCreateSessionOnDestroy = true) :
    (newActions w (OnDestroySessionComplete name true w)).filter Action.isCreateRequest =
      [Action.CreateSession w.engine.PreferredUniqueNetId NAME_GameSession
        (buildSessionSettings w.engine.SubsystemName w.sub.LastNumPublicConnections
          w.sub.LastMatchType) w.engine.CreateSessionAccepted] := by
  cases hex : w.engine.NamedSession <;> cases hd : w.engine.DestroySessionAccepted <;>
    cases hc : w.engine.CreateSessionAccepted <;>
    simp [newActions, OnDestroySessionComplete, CreateSession, DestroySession, World.call,
      World.Broadcast, World.AddDelegate_Handle, World.ClearDelegate_Handle, hflag, hvalid, hex,
      hd, hc, Action.isCreateRequest]

/-! ## The loop of the menu -/

/-- A step that leaves the search object and the find delegate list alone and neither
resolves nor starts a find request keeps the invariant of the search object. -/
theorem FindInv_frame {w w' : World} {p : Pending} {s : Step} (h : FindInv w p)
    (hs : w'.sub.LastSessionSearch = w.sub.LastSessionSearch)
    (hl : w'.delegates.OnFindSessionsCompleteDelegates =
      w.delegates.OnFindSessionsCompleteDelegates)
    (ha : acceptedRequests OpKind.find (newActions w w') = 0)
    (hres : s.resolved OpKind.find = 0) :
    FindInv w' (p.step s (newActions w w')) := by
  unfold FindInv at h ⊢
  rw [hs, hl]
  rcases h with h | ⟨h1, h2⟩
  · exact Or.inl h
  · right
    refine ⟨h1, ?_⟩
    simp [Pending.step, ha, hres, h2]

/-- Every step that is defined keeps the invariant of the search object. -/
theorem Step_apply_find_inv (s : Step) (w w' : World) (p : Pending) (h : FindInv w p)
    (happ : s.apply w = some w') : FindInv w' (p.step s (newActions w w')) := by
  cases s with
  | CreateSession n m =>
    simp [Step.apply] at happ; subst happ
    apply FindInv_frame h <;>
      first
      | rfl
      | (cases hv : w.sub.SessionInterfaceValid <;> cases hex : w.engine.NamedSession <;>
          cases hd : w.engine.DestroySessionAccepted <;>
          cases hc : w.engine.CreateSessionAccepted <;>
          simp [newActions, acceptedRequests, Action.isAcceptedRequest, CreateSession,
            DestroySession, World.call, World.Broadcast, World.AddDelegate_Handle,
            World.ClearDelegate_Handle, hv, hex, hd, hc, DelegateLists.set, DelegateLists.get])
  | FindSessions k =>
    simp [Step.apply] at happ; subst happ
    cases hv : w.sub.SessionInterfaceValid with
    | false =>
      apply FindInv_frame h <;>
        first
        | rfl
        | simp [newActions, acceptedRequests, FindSessions, hv]
    | true =>
      left
      cases hc : w.engine.FindSessionsAccepted <;>
        simp [FindSessions, World.call, World.Broadcast, World.AddDelegate_Handle,
          World.ClearDelegate_Handle, hv, hc]
  | JoinSession r =>
    simp [Step.apply] at happ; subst happ
    apply FindInv_frame h <;>
      first
      | rfl
      | (cases hv : w.sub.SessionInterfaceValid <;> cases hc : w.engine.JoinSessionAccepted <;>
          simp [newActions, acceptedRequests, Action.isAcceptedRequest, JoinSession,
            World.call, World.Broadcast, World.AddDelegate_Handle, World.ClearDelegate_Handle,
            hv, hc, DelegateLists.set, DelegateLists.get])
  | DestroySession =>
    simp [Step.apply] at happ; subst happ
    apply FindInv_frame h <;>
      first
      | rfl
      | (cases hv : w.sub.SessionInterfaceValid <;>
          cases hc : w.engine.DestroySessionAccepted <;>
          simp [newActions, acceptedRequests, Action.isAcceptedRequest, DestroySession,
            World.call, World.Broadcast, World.AddDelegate_Handle, World.ClearDelegate_Handle,
            hv, hc, DelegateLists.set, DelegateLists.get])
  | StartSession =>
    simp [Step.apply, MultiplayerSessions.StartSession] at happ; subst happ
    apply FindInv_frame h <;> first | rfl | simp [newActions, acceptedRequests]
  | CreateSessionCompleted b =>
    simp [Step.apply] at happ; subst happ
    apply FindInv_frame h <;>
      first
      | rfl
      | (cases hv : w.sub.SessionInterfaceValid <;>
          simp [newActions, acceptedRequests, Action.isAcceptedRequest,
            OnCreateSessionComplete, World.Broadcast, World.ClearDelegate_Handle, hv,
            DelegateLists.set, DelegateLists.get])
  | FindSessionsCompleted rs b =>
    simp [Step.apply] at happ
    left
    cases hs : w.sub.LastSessionSearch with
    | none =>
      cases hv : w.sub.SessionInterfaceValid <;>
        simp [OnFindSessionsComplete, World.deliverSearchResults, World.ClearDelegate_Handle,
          hs, hv] at happ
    | some search =>
      cases hv : w.sub.SessionInterfaceValid <;> by_cases hr : rs = [] <;>
        simp [OnFindSessionsComplete, World.deliverSearchResults, World.ClearDelegate_Handle,
          World.Broadcast, hs, hv, hr] at happ <;>
        subst happ <;> simp [hs]
  | JoinSessionCompleted r =>
    simp [Step.apply] at happ; subst happ
    apply FindInv_frame h <;>
      first
      | rfl
      | (cases hv : w.sub.SessionInterfaceValid <;>
          simp [newActions, acceptedRequests, Action.isAcceptedRequest,
            OnJoinSessionComplete, World.Broadcast, World.ClearDelegate_Handle, hv,
            DelegateLists.set, DelegateLists.get])
  | DestroySessionCompleted b =>
    simp [Step.apply] at happ; subst happ
    apply FindInv_frame h <;>
      first
      | rfl
      | (cases b <;> cases hf : w.sub.bCreateSessionOnDestroy <;>
          cases hv : w.sub.SessionInterfaceValid <;> cases hex : w.engine.NamedSession <;>
          cases hd : w.engine.DestroySessionAccepted <;>
          cases hc : w.engine.CreateSessionAccepted <;>
          simp [newActions, acceptedRequests, Action.isAcceptedRequest,
            OnDestroySessionComplete, CreateSession, DestroySession, World.call,
            World.Broadcast, World.AddDelegate_Handle, World.ClearDelegate_Handle, hf, hv, hex,
            hd, hc, DelegateLists.set, DelegateLists.get])
  | EngineChanges e =>
    simp [Step.apply] at happ; subst happ
    apply FindInv_frame h <;>
      first | rfl | simp [newActions, acceptedRequests, World.setEngine]

/-- With the search object set the find callback is defined. -/
theorem OnFindSessionsComplete_defined (b : Bool) (w : World)
    (h : w.sub.LastSessionSearch.isSome = true) :
    ∃ w', OnFindSessionsComplete b w = some w' := by
  cases hs : w.sub.LastSessionSearch with
  | none => simp [hs] at h
  | some search =>
    cases hv : w.sub.SessionInterfaceValid <;> by_cases hr : search.SearchResults = [] <;>
      simp [OnFindSessionsComplete, World.ClearDelegate_Handle, hs, hv, hr]

/-- Under the discipline of the session interface every allowed step is defined. -/
theorem Step_apply_defined (s : Step) (w : World) (p : Pending) (h : FindInv w p)
    (hallowed : answersOnly p w s = true) : ∃ w', s.apply w = some w' := by
  cases s with
  | FindSessionsCompleted rs b =>
    simp [answersOnly, Step.completes, Pending.get] at hallowed
    have hsome : w.sub.LastSessionSearch.isSome = true := by
      rcases h with h | ⟨_, h2⟩
      · exact h
      · omega
    simp only [Step.apply]
    apply OnFindSessionsComplete_defined
    cases hs : w.sub.LastSessionSearch with
    | none => simp [hs] at hsome
    | some search => simp [World.deliverSearchResults, hs]
  | CreateSession n m => exact ⟨_, rfl⟩
  | FindSessions k => exact ⟨_, rfl⟩
  | JoinSession r => exact ⟨_, rfl⟩
  | DestroySession => exact ⟨_, rfl⟩
  | StartSession => exact ⟨_, rfl⟩
  | CreateSessionCompleted b => exact ⟨_, rfl⟩
  | JoinSessionCompleted r => exact ⟨_, rfl⟩
  | DestroySessionCompleted b => exact ⟨_, rfl⟩
  | EngineChanges e => exact ⟨_, rfl⟩

/-- The invariant of the search object holds at the end of every run, under any discipline. -/
theorem runSteps_find_inv (allowed : Pending → World → Step → Bool) (steps : List Step)
    (w w' : World) (p p' : Pending) (h : FindInv w p)
    (hrun : runSteps allowed steps w p = Run.ok w' p') : FindInv w' p' := by
  induction steps generalizing w p with
  | nil =>
    simp [runSteps] at hrun
    rw [← hrun.1, ← hrun.2]
    exact h
  | cons s rest ih =>
    rw [runSteps] at hrun
    cases ha : allowed p w s with
    | false => simp [ha] at hrun
    | true =>
      cases hap : s.apply w with
      | none => simp [ha, hap] at hrun
      | some w1 =>
        simp [ha, hap] at hrun
        exact ih w1 _ (Step_apply_find_inv s w w1 p h hap) hrun

/-- Under the discipline of the session interface no run reads a missing search object. -/
theorem runSteps_never_null (steps : List Step) (w : World) (p : Pending) (h : FindInv w p) :
    runSteps answersOnly steps w p ≠ Run.nullSearch := by
  induction steps generalizing w p with
  | nil => simp [runSteps]
  | cons s rest ih =>
    rw [runSteps]
    cases ha : answersOnly p w s with
    | false => simp
    | true =>
      obtain ⟨w1, hap⟩ := Step_apply_defined s w p h ha
      simp only [hap, if_true]
      exact ih w1 _ (Step_apply_find_inv s w w1 p h hap)

/-- The invariant of the search object holds right after construction. -/
theorem FindInv_init (valid : Bool) (e : Engine) : FindInv (World.init valid e) Pending.none :=
  Or.inr ⟨rfl, rfl⟩

/-! ## Claims -/

/-- C1 (the code at the failing input).  With the session interface valid, a session in the
slot and an engine that accepts every request, the call `CreateSession 4 "FFA"` itself
issues a create request: after the destroy request the call goes on to register the create
delegate and to call `CreateSession` on the session interface, before any destroy
completion has run. -/
theorem CreateSession_existing_issues_create_request :
    newActions (World.init true engineExistingAcceptAll)
        (CreateSession 4 "FFA" (World.init true engineExistingAcceptAll)) =
      [Action.GetNamedSession NAME_GameSession true,
       Action.AddDelegate OpKind.destroy 1,
       Action.DestroySession NAME_GameSession true,
       Action.AddDelegate OpKind.create 2,
       Action.CreateSession 7 NAME_GameSession (buildSessionSettings "Steam" 4 "FFA") true] ∧
    (newActions (World.init true engineExistingAcceptAll)
        (CreateSession 4 "FFA" (World.init true engineExistingAcceptAll))).any
      Action.isCreateRequest = true := by
  decide

/-- C2.  With the session interface valid and a session in the slot, `CreateSession n m` sets
`bCreateSessionOnDestroy`, stashes `(n, m)` and invokes `DestroySession`: the calls it makes
start with the lookup, the destroy registration and the destroy request for
`NAME_GameSession`, and a destroy request for that name precedes every create request of
the call. -/
theorem CreateSession_existing_defers_and_destroys_first (n : Int) (m : String) (w : World)
    (hvalid : w.sub.SessionInterfaceValid = true) (hex : w.engine.NamedSession = true) :
    (CreateSession n m w).sub.bCreateSessionOnDestroy = true ∧
    (CreateSession n m w).sub.LastNumPublicConnections = n ∧
    (CreateSession n m w).sub.LastMatchType = m ∧
    (∃ rest, newActions w (CreateSession n m w) =
      Action.GetNamedSession NAME_GameSession true ::
        Action.AddDelegate OpKind.destroy w.delegates.NextHandle ::
          Action.DestroySession NAME_GameSession w.engine.DestroySessionAccepted :: rest) ∧
    precedesEvery (Action.isDestroyRequest NAME_GameSession) Action.isCreateRequest
      (newActions w (CreateSession n m w)) = true := by
  have hs := CreateSession_existing_sub n m w hvalid hex
  have ht := CreateSession_existing_trace n m w hvalid hex
  refine ⟨hs.1, hs.2.1, hs.2.2.1, ?_, ?_⟩
  · simp [newActions, ht]
  · simp [newActions, ht, precedesEvery, Action.isCreateRequest, Action.isDestroyRequest,
      List.takeWhile]

/-- Witness for C2: a fresh subsystem, a session in the slot, `CreateSession 4 "FFA"`. -/
theorem CreateSession_existing_defers_and_destroys_first_witness :
    (World.init true engineExistingAcceptAll).sub.SessionInterfaceValid = true ∧
    (World.init true engineExistingAcceptAll).engine.NamedSession = true ∧
    (CreateSession 4 "FFA" (World.init true engineExistingAcceptAll)).sub.bCreateSessionOnDestroy
      = true ∧
    (CreateSession 4 "FFA" (World.init true engineExistingAcceptAll)).sub.LastNumPublicConnections
      = 4 ∧
    (CreateSession 4 "FFA" (World.init true engineExistingAcceptAll)).sub.LastMatchType = "FFA" ∧
    precedesEvery (Action.isDestroyRequest NAME_GameSession) Action.isCreateRequest
      (newActions (World.init true engineExistingAcceptAll)
        (CreateSession 4 "FFA" (World.init true engineExistingAcceptAll))) = true :=
  have h := CreateSession_existing_defers_and_destroys_first 4 "FFA"
    (World.init true engineExistingAcceptAll) (by decide) (by decide)
  ⟨by decide, by decide, h.1, h.2.1, h.2.2.1, h.2.2.2.2⟩

/-- C3.  After a first `CreateSession n1 m1` and its completion, a second call
`CreateSession n2 m2` made while a session exists, followed by a successful destroy
completion that finds the slot empty, makes the destroy callback issue exactly one create
request; its settings are built from the second call: `NumPublicConnections = n2` and
`MatchType = m2`. -/
theorem replacement_create_uses_second_call_parameters (n1 n2 : Int) (m1 m2 : String)
    (w0 : World) (e1 e2 : Engine)
    (hvalid : w0.sub.SessionInterfaceValid = true)
    (hex1 : e1.NamedSession = true) (hempty2 : e2.NamedSession = false) :
    (newActions (afterSecondCreate n1 m1 n2 m2 w0 e1 e2)
        (OnDestroySessionComplete NAME_GameSession true
          (afterSecondCreate n1 m1 n2 m2 w0 e1 e2))).filter Action.isCreateRequest =
      [Action.CreateSession e2.PreferredUniqueNetId NAME_GameSession
        (buildSessionSettings e2.SubsystemName n2 m2) e2.CreateSessionAccepted] ∧
    (buildSessionSettings e2.SubsystemName n2 m2).NumPublicConnections = n2 ∧
    SettingsGet "MatchType" (buildSessionSettings e2.SubsystemName n2 m2).Settings = some m2 := by
  have hv1 : ((OnCreateSessionComplete NAME_GameSession true
      (CreateSession n1 m1 w0)).setEngine e1).sub.SessionInterfaceValid = true := by
    simp [World.setEngine, OnCreateSessionComplete, World.Broadcast, World.ClearDelegate_Handle,
      CreateSession_valid, hvalid]
  have hs := CreateSession_existing_sub n2 m2 _ hv1 (by simpa [World.setEngine] using hex1)
  have ht := OnDestroySessionComplete_resume_trace NAME_GameSession
    (afterSecondCreate n1 m1 n2 m2 w0 e1 e2)
    (by simpa [afterSecondCreate, afterDeferredCreate, World.setEngine] using hs.2.2.2)
    (by simpa [afterSecondCreate, afterDeferredCreate, World.setEngine] using hs.1)
    (by simpa [afterSecondCreate, afterDeferredCreate, World.setEngine] using hempty2)
  have hn : (afterSecondCreate n1 m1 n2 m2 w0 e1 e2).sub.LastNumPublicConnections = n2 := by
    simpa [afterSecondCreate, afterDeferredCreate, World.setEngine] using hs.2.1
  have hm : (afterSecondCreate n1 m1 n2 m2 w0 e1 e2).sub.LastMatchType = m2 := by
    simpa [afterSecondCreate, afterDeferredCreate, World.setEngine] using hs.2.2.1
  have he : (afterSecondCreate n1 m1 n2 m2 w0 e1 e2).engine = e2 := by
    simp [afterSecondCreate, afterDeferredCreate, World.setEngine]
  refine ⟨?_, ?_, ?_⟩
  · rw [newActions, ht, hn, hm, he]
    cases hc : e2.CreateSessionAccepted <;> simp [Action.isCreateRequest]
  · simp [buildSessionSettings]
  · simp [buildSessionSettings, FOnlineSessionSettings.new, SettingsSet, SettingsGet]

/-- Witness for C3: first `CreateSession 4 "FFA"`, then `CreateSession 2 "Duel"` while the
session exists, then the destroy completes on an empty slot. -/
theorem replacement_create_uses_second_call_parameters_witness :
    (newActions
        (afterSecondCreate 4 "FFA" 2 "Duel" (World.init true engineEmptyAcceptAll)
          engineExistingAcceptAll engineEmptyAcceptAll)
        (OnDestroySessionComplete NAME_GameSession true
          (afterSecondCreate 4 "FFA" 2 "Duel" (World.init true engineEmptyAcceptAll)
            engineExistingAcceptAll engineEmptyAcceptAll))).filter Action.isCreateRequest =
      [Action.CreateSession 7 NAME_GameSession (buildSessionSettings "Steam" 2 "Duel") true] :=
  (replacement_create_uses_second_call_parameters 4 2 "FFA" "Duel"
    (World.init true engineEmptyAcceptAll) engineExistingAcceptAll engineEmptyAcceptAll
    (by decide) (by decide) (by decide)).1

/-- C4 (as stated, refuted).  A session exists, `CreateSession 4 "FFA"` is called, the destroy
completes with `true` and the engine rejects the follow-up create synchronously: the
destroy callback broadcasts `CreateComplete(false)` first and `DestroyComplete(true)` after
it. -/
theorem DestroyComplete_after_rejected_follow_up_create :
    events (newActions
        (afterDeferredCreate 4 "FFA" (World.init true engineExistingRejectCreate)
          engineEmptyRejectCreate)
        (OnDestroySessionComplete NAME_GameSession true
          (afterDeferredCreate 4 "FFA" (World.init true engineExistingRejectCreate)
            engineEmptyRejectCreate))) =
      [Event.MultiplayerOnCreateSessionComplete false,
       Event.MultiplayerOnDestroySessionComplete true] ∧
    precedesEvery (Event.isDestroyComplete true) Event.isCreateComplete
      (events (newActions
        (afterDeferredCreate 4 "FFA" (World.init true engineExistingRejectCreate)
          engineEmptyRejectCreate)
        (OnDestroySessionComplete NAME_GameSession true
          (afterDeferredCreate 4 "FFA" (World.init true engineExistingRejectCreate)
            engineEmptyRejectCreate)))) = false := by
  decide

/-- C4 (amended).  In the create-after-destroy path (a session exists, `CreateSession n m` is
called, the destroy completes with `true`): when the engine accepts the follow-up create,
the destroy callback broadcasts no create-complete event and ends with
`DestroyComplete(true)`, so the `CreateComplete` delivered by the later create callback
comes after it; when the engine rejects the follow-up create synchronously,
`CreateComplete(false)` is broadcast inside the callback before `DestroyComplete(true)`. -/
theorem DestroyComplete_order_by_follow_up_answer (n : Int) (m : String) (w : World)
    (e : Engine) (s : Bool)
    (hvalid : w.sub.SessionInterfaceValid = true) (hex : w.engine.NamedSession = true) :
    (e.CreateSessionAccepted = true →
      (events (newActions (afterDeferredCreate n m w e)
        (OnDestroySessionComplete NAME_GameSession true (afterDeferredCreate n m w e)))).any
          Event.isCreateComplete = false ∧
      (events (newActions (afterDeferredCreate n m w e)
        (OnDestroySessionComplete NAME_GameSession true (afterDeferredCreate n m w e)))).getLast?
          = some (Event.MultiplayerOnDestroySessionComplete true) ∧
      precedesEvery (Event.isDestroyComplete true) Event.isCreateComplete
        (events (newActions (afterDeferredCreate n m w e)
          (OnCreateSessionComplete NAME_GameSession s
            (OnDestroySessionComplete NAME_GameSession true (afterDeferredCreate n m w e)))))
          = true) ∧
    (e.CreateSessionAccepted = false →
      precedesEvery (Event.isDestroyComplete true) Event.isCreateComplete
        (events (newActions (afterDeferredCreate n m w e)
          (OnDestroySessionComplete NAME_GameSession true (afterDeferredCreate n m w e))))
          = false) := by
  have hs := CreateSession_existing_sub n m w hvalid hex
  have hev := OnDestroySessionComplete_resume_events NAME_GameSession
    (afterDeferredCreate n m w e)
    (by simpa [afterDeferredCreate, World.setEngine] using hs.2.2.2)
    (by simpa [afterDeferredCreate, World.setEngine] using hs.1)
  have he : (afterDeferredCreate n m w e).engine = e := by
    simp [afterDeferredCreate, World.setEngine]
  rw [he] at hev
  have hcomp := newActions_trans (afterDeferredCreate n m w e)
    (OnDestroySessionComplete NAME_GameSession true (afterDeferredCreate n m w e))
    (OnCreateSessionComplete NAME_GameSession s
      (OnDestroySessionComplete NAME_GameSession true (afterDeferredCreate n m w e)))
    (OnDestroySessionComplete_trace _ _ _) (OnCreateSessionComplete_trace _ _ _)
  constructor
  · intro hc
    rw [hcomp, events_append, OnCreateSessionComplete_events, hev]
    cases hex2 : e.NamedSession <;> cases hd : e.DestroySessionAccepted <;>
      simp [hc, precedesEvery, Event.isCreateComplete, Event.isDestroyComplete, List.takeWhile]
  · intro hc
    rw [hev]
    cases hex2 : e.NamedSession <;> cases hd : e.DestroySessionAccepted <;>
      simp [hc, precedesEvery, Event.isCreateComplete, Event.isDestroyComplete, List.takeWhile]

/-- Witness for C4 (amended): the engine accepts the follow-up create, which later completes
with `true`. -/
theorem DestroyComplete_order_by_follow_up_answer_witness :
    (World.init true engineExistingRejectCreate).sub.SessionInterfaceValid = true ∧
    (World.init true engineExistingRejectCreate).engine.NamedSession = true ∧
    precedesEvery (Event.isDestroyComplete true) Event.isCreateComplete
      (events (newActions
        (afterDeferredCreate 4 "FFA" (World.init true engineExistingRejectCreate)
          engineEmptyAcceptAll)
        (OnCreateSessionComplete NAME_GameSession true
          (OnDestroySessionComplete NAME_GameSession true
            (afterDeferredCreate 4 "FFA" (World.init true engineExistingRejectCreate)
              engineEmptyAcceptAll))))) = true :=
  ⟨by decide, by decide,
    ((DestroyComplete_order_by_follow_up_answer 4 "FFA"
      (World.init true engineExistingRejectCreate) engineEmptyAcceptAll true
      (by decide) (by decide)).1 (by decide)).2.2⟩

/-- C5.  Whatever flag the session interface reports, when the last search holds no result
the find callback broadcasts exactly one event, `FindComplete([], false)`. -/
theorem OnFindSessionsComplete_empty_results (b : Bool) (w : World)
    (search : FOnlineSessionSearch)
    (hsearch : w.sub.LastSessionSearch = some search)
    (hempty : search.SearchResults = []) :
    ∃ w', OnFindSessionsComplete b w = some w' ∧
      events (newActions w w') = [Event.MultiplayerOnFindSessionsComplete [] false] := by
  cases hv : w.sub.SessionInterfaceValid <;>
    simp [OnFindSessionsComplete, World.ClearDelegate_Handle, World.Broadcast, hsearch, hempty,
      hv, newActions, events, Action.event?]

/-- Witness for C5: an accepted `FindSessions 10` whose search reports success with no
result. -/
theorem OnFindSessionsComplete_empty_results_witness :
    ∃ w', OnFindSessionsComplete true (FindSessions 10 (World.init true engineEmptyAcceptAll))
        = some w' ∧
      events (newActions (FindSessions 10 (World.init true engineEmptyAcceptAll)) w') =
        [Event.MultiplayerOnFindSessionsComplete [] false] :=
  OnFindSessionsComplete_empty_results true
    (FindSessions 10 (World.init true engineEmptyAcceptAll))
    (buildSessionSearch "Steam" 10) (by decide) (by decide)

/-- C6.  For every result code, the join callback broadcasts exactly one event,
`JoinComplete` with that code unmodified. -/
theorem OnJoinSessionComplete_passes_result (name : String)
    (r : EOnJoinSessionCompleteResult) (w : World) :
    events (newActions w (OnJoinSessionComplete name r w)) =
      [Event.MultiplayerOnJoinSessionComplete r] := by
  cases hv : w.sub.SessionInterfaceValid <;>
    simp [newActions, OnJoinSessionComplete, World.Broadcast, World.ClearDelegate_Handle, hv,
      events, Action.event?]

/-- C7.  From a subsystem with a valid session interface, no create delegate registered and
an empty slot, an accepted `CreateSession n m` followed by the create callback with flag `s`
performs exactly: lookup, one registration of the create delegate, the create request, one
removal of that same delegate, one broadcast `CreateComplete(s)`; no create delegate is
left registered. -/
theorem CreateSession_accepted_then_completed (n : Int) (m : String) (s : Bool) (w : World)
    (e : Engine)
    (hvalid : w.sub.SessionInterfaceValid = true)
    (hempty : w.engine.NamedSession = false)
    (hacc : w.engine.CreateSessionAccepted = true)
    (hidle : w.delegates.OnCreateSessionCompleteDelegates = []) :
    newActions w (OnCreateSessionComplete NAME_GameSession s
        ((CreateSession n m w).setEngine e)) =
      [Action.GetNamedSession NAME_GameSession false,
       Action.AddDelegate OpKind.create w.delegates.NextHandle,
       Action.CreateSession w.engine.PreferredUniqueNetId NAME_GameSession
         (buildSessionSettings w.engine.SubsystemName n m) true,
       Action.ClearDelegate OpKind.create w.delegates.NextHandle,
       Action.Broadcast (Event.MultiplayerOnCreateSessionComplete s)] ∧
    events (newActions w (OnCreateSessionComplete NAME_GameSession s
        ((CreateSession n m w).setEngine e))) =
      [Event.MultiplayerOnCreateSessionComplete s] ∧
    addedHandles OpKind.create (newActions w (OnCreateSessionComplete NAME_GameSession s
        ((CreateSession n m w).setEngine e))) = [w.delegates.NextHandle] ∧
    clearedHandles OpKind.create (newActions w (OnCreateSessionComplete NAME_GameSession s
        ((CreateSession n m w).setEngine e))) = [w.delegates.NextHandle] ∧
    (OnCreateSessionComplete NAME_GameSession s
        ((CreateSession n m w).setEngine e)).delegates.OnCreateSessionCompleteDelegates = [] := by
  have ht : newActions w (OnCreateSessionComplete NAME_GameSession s
        ((CreateSession n m w).setEngine e)) =
      [Action.GetNamedSession NAME_GameSession false,
       Action.AddDelegate OpKind.create w.delegates.NextHandle,
       Action.CreateSession w.engine.PreferredUniqueNetId NAME_GameSession
         (buildSessionSettings w.engine.SubsystemName n m) true,
       Action.ClearDelegate OpKind.create w.delegates.NextHandle,
       Action.Broadcast (Event.MultiplayerOnCreateSessionComplete s)] := by
    simp [newActions, OnCreateSessionComplete, CreateSession, World.setEngine, World.call,
      World.Broadcast, World.AddDelegate_Handle, World.ClearDelegate_Handle, hvalid, hempty,
      hacc, DelegateLists.set, DelegateLists.get]
  refine ⟨ht, ?_, ?_, ?_, ?_⟩
  · rw [ht]; simp [events, Action.event?]
  · rw [ht]; simp [addedHandles, addedOf, delegateOps, Action.delegateOp?, DelegateOp.added?]
  · rw [ht]
    simp [clearedHandles, clearedOf, delegateOps, Action.delegateOp?, DelegateOp.cleared?]
  · simp [OnCreateSessionComplete, CreateSession, World.setEngine, World.call,
      World.Broadcast, World.AddDelegate_Handle, World.ClearDelegate_Handle, hvalid, hempty,
      hacc, hidle, DelegateLists.set, DelegateLists.get]

/-- Witness for C7: `CreateSession 4 "FFA"` on a fresh subsystem, completed with `true`. -/
theorem CreateSession_accepted_then_completed_witness :
    events (newActions (World.init true engineEmptyAcceptAll)
      (OnCreateSessionComplete NAME_GameSession true
        ((CreateSession 4 "FFA" (World.init true engineEmptyAcceptAll)).setEngine
          engineExistingAcceptAll))) =
      [Event.MultiplayerOnCreateSessionComplete true] ∧
    (OnCreateSessionComplete NAME_GameSession true
        ((CreateSession 4 "FFA" (World.init true engineEmptyAcceptAll)).setEngine
          engineExistingAcceptAll)).delegates.OnCreateSessionCompleteDelegates = [] :=
  have h := CreateSession_accepted_then_completed 4 "FFA" true
    (World.init true engineEmptyAcceptAll) engineExistingAcceptAll
    (by decide) (by decide) (by decide) (by decide)
  ⟨h.2.1, h.2.2.2.2⟩

/-- C8 (as stated, refuted).  A run in which every issued request resolves: `FindSessions`
is called twice in a row, both requests are accepted and both complete.  The second
registration overwrites the handle member, so handle `1` is never cleared and stays
registered, while handle `2` is cleared twice. -/
theorem overlapping_find_leaks_a_token :
    (runSteps answersOnly
        [Step.FindSessions 10, Step.FindSessions 10, Step.FindSessionsCompleted [] true,
         Step.FindSessionsCompleted [] true]
        (World.init true engineEmptyAcceptAll) Pending.none).pending? = some Pending.none ∧
    (runSteps answersOnly
        [Step.FindSessions 10, Step.FindSessions 10, Step.FindSessionsCompleted [] true,
         Step.FindSessionsCompleted [] true]
        (World.init true engineEmptyAcceptAll) Pending.none).world?.map
      (fun w => (addedHandles OpKind.find w.trace, clearedHandles OpKind.find w.trace,
        w.delegates.get OpKind.find)) = some ([1, 2], [2, 2], [1]) := by
  decide

/-- C8 (amended).  In every run from a fresh subsystem in which no operation is called while
a request of its kind is unresolved and `CreateSession` is called only while the slot is
empty: the handles registered for a kind are pairwise distinct and are exactly the handles
cleared so far followed by the ones still registered; once every request of the kind has
resolved, the cleared handles are the registered handles (same handles, same order, each
once) and no delegate of the kind is left registered. -/
theorem disciplined_run_clears_every_token_once (steps : List Step) (valid : Bool)
    (e : Engine) (w : World) (p : Pending) (k : OpKind)
    (hrun : runSteps oneAtATimeEmptySlot steps (World.init valid e) Pending.none = Run.ok w p) :
    (addedHandles k w.trace).Nodup ∧
    addedHandles k w.trace = clearedHandles k w.trace ++ w.delegates.get k ∧
    (p.get k = 0 →
      clearedHandles k w.trace = addedHandles k w.trace ∧
      (clearedHandles k w.trace).length = (addedHandles k w.trace).length ∧
      (clearedHandles k w.trace).Nodup ∧
      w.delegates.get k = []) := by
  have hinv := (runSteps_keeps_inv steps _ w _ p (RunInv_init valid e) hrun).kind k
  refine ⟨hinv.nodup, hinv.paired, ?_⟩
  intro hp
  have hreg : w.delegates.get k = [] := by
    have := hinv.reg_eq
    simpa [hp] using this
  have hpair : addedHandles k w.trace = clearedHandles k w.trace := by
    have := hinv.paired
    rw [hreg, List.append_nil] at this
    exact this
  refine ⟨hpair.symm, by rw [hpair], ?_, hreg⟩
  rw [← hpair]
  exact hinv.nodup

/-- Witness for C8 (amended): a create and a destroy, each accepted and completed. -/
theorem disciplined_run_clears_every_token_once_witness :
    clearedHandles OpKind.create
        (OnDestroySessionComplete NAME_GameSession true
          (DestroySession
            (OnCreateSessionComplete NAME_GameSession true
              (CreateSession 4 "FFA" (World.init true engineEmptyAcceptAll))))).trace =
      addedHandles OpKind.create
        (OnDestroySessionComplete NAME_GameSession true
          (DestroySession
            (OnCreateSessionComplete NAME_GameSession true
              (CreateSession 4 "FFA" (World.init true engineEmptyAcceptAll))))).trace ∧
    (OnDestroySessionComplete NAME_GameSession true
      (DestroySession
        (OnCreateSessionComplete NAME_GameSession true
          (CreateSession 4 "FFA" (World.init true engineEmptyAcceptAll))))).delegates.get
      OpKind.create = [] :=
  have h := (disciplined_run_clears_every_token_once
    [Step.CreateSession 4 "FFA", Step.CreateSessionCompleted true, Step.DestroySession,
     Step.DestroySessionCompleted true]
    true engineEmptyAcceptAll
    (OnDestroySessionComplete NAME_GameSession true
      (DestroySession
        (OnCreateSessionComplete NAME_GameSession true
          (CreateSession 4 "FFA" (World.init true engineEmptyAcceptAll)))))
    Pending.none OpKind.create (by decide)).2.2 (by decide)
  ⟨h.1, h.2.2.2⟩

/-- C9 (as stated, refuted).  A run in which the consumer never calls an operation while a
request of its kind is unresolved: `CreateSession 4 "FFA"` finds a session (its own create
request is rejected), the destroy fails, which leaves the deferred create armed; the
consumer then calls `DestroySession` and, with the slot empty, `CreateSession 2 "Duel"`;
when the destroy completes, the callback issues the deferred create while the consumer's
create is unresolved: two create delegates are registered. -/
theorem stale_deferred_create_registers_second_delegate :
    (runSteps oneAtATime
        [Step.CreateSession 4 "FFA", Step.DestroySessionCompleted false, Step.DestroySession,
         Step.EngineChanges engineEmptyAcceptAll, Step.CreateSession 2 "Duel",
         Step.DestroySessionCompleted true]
        (World.init true engineExistingRejectCreate) Pending.none).world?.map
      (fun w => w.delegates.get OpKind.create) = some [4, 5] ∧
    (runSteps oneAtATime
        [Step.CreateSession 4 "FFA", Step.DestroySessionCompleted false, Step.DestroySession,
         Step.EngineChanges engineEmptyAcceptAll, Step.CreateSession 2 "Duel",
         Step.DestroySessionCompleted true]
        (World.init true engineExistingRejectCreate) Pending.none).world?.map
      (fun w => peakRegistered [] (delegateOps OpKind.create w.trace)) = some 2 := by
  decide

/-- C9 (amended).  In every run from a fresh subsystem in which no operation is called while
a request of its kind is unresolved and `CreateSession` is called only while the slot is
empty, at most one completion delegate per kind is registered at any time: at the end of
the run, and at every moment of the trace (the delegate list replayed from the trace is
the list of the session interface, and its length never exceeds one). -/
theorem disciplined_run_registers_at_most_one (steps : List Step) (valid : Bool)
    (e : Engine) (w : World) (p : Pending) (k : OpKind)
    (hrun : runSteps oneAtATimeEmptySlot steps (World.init valid e) Pending.none = Run.ok w p) :
    (w.delegates.get k).length ≤ 1 ∧
    peakRegistered [] (delegateOps k w.trace) ≤ 1 ∧
    finalRegistered [] (delegateOps k w.trace) = w.delegates.get k := by
  have hinv := (runSteps_keeps_inv steps _ w _ p (RunInv_init valid e) hrun).kind k
  refine ⟨?_, hinv.peak, hinv.final⟩
  rw [hinv.reg_eq]
  split <;> simp

/-- Witness for C9 (amended): a create and a find are unresolved at the same time. -/
theorem disciplined_run_registers_at_most_one_witness :
    ((FindSessions 10
      (CreateSession 4 "FFA" (World.init true engineEmptyAcceptAll))).delegates.get
        OpKind.create).length ≤ 1 ∧
    peakRegistered []
      (delegateOps OpKind.create
        (FindSessions 10
          (CreateSession 4 "FFA" (World.init true engineEmptyAcceptAll))).trace) ≤ 1 :=
  have h := disciplined_run_registers_at_most_one
    [Step.CreateSession 4 "FFA", Step.FindSessions 10] true engineEmptyAcceptAll
    (FindSessions 10 (CreateSession 4 "FFA" (World.init true engineEmptyAcceptAll)))
    { create := 1, find := 1, join := 0, destroy := 0 } OpKind.create (by decide)
  ⟨h.1, h.2.1⟩

/-- C10.  With the session interface unavailable, `JoinSession` broadcasts exactly
`JoinComplete(UnknownError)` within the call, makes no call on the session interface and
changes nothing else: members, delegate lists and engine are untouched. -/
theorem JoinSession_unavailable (r : FOnlineSessionSearchResult) (w : World)
    (hinvalid : w.sub.SessionInterfaceValid = false) :
    newActions w (JoinSession r w) =
      [Action.Broadcast
        (Event.MultiplayerOnJoinSessionComplete EOnJoinSessionCompleteResult.UnknownError)] ∧
    (newActions w (JoinSession r w)).any Action.isBackendCall = false ∧
    (JoinSession r w).sub = w.sub ∧
    (JoinSession r w).delegates = w.delegates ∧
    (JoinSession r w).engine = w.engine := by
  simp [newActions, JoinSession, World.Broadcast, hinvalid, Action.isBackendCall]

/-- Witness for C10: a subsystem built without a session interface. -/
theorem JoinSession_unavailable_witness :
    (World.init false engineEmptyAcceptAll).sub.SessionInterfaceValid = false ∧
    newActions (World.init false engineEmptyAcceptAll)
        (JoinSession { SessionIdStr := "s1", OwningUserName := "host", SessionSettings := [] }
          (World.init false engineEmptyAcceptAll)) =
      [Action.Broadcast
        (Event.MultiplayerOnJoinSessionComplete EOnJoinSessionCompleteResult.UnknownError)] :=
  ⟨by decide,
    (JoinSession_unavailable
      { SessionIdStr := "s1", OwningUserName := "host", SessionSettings := [] }
      (World.init false engineEmptyAcceptAll) (by decide)).1⟩

/-- C11.  With the session interface unavailable, `DestroySession` broadcasts exactly
`DestroyComplete(false)` within the call, makes no call on the session interface and
changes nothing else: members (the deferred-create flag and the stash among them),
delegate lists and engine are untouched. -/
theorem DestroySession_unavailable (w : World)
    (hinvalid : w.sub.SessionInterfaceValid = false) :
    newActions w (DestroySession w) =
      [Action.Broadcast (Event.MultiplayerOnDestroySessionComplete false)] ∧
    (newActions w (DestroySession w)).any Action.isBackendCall = false ∧
    (DestroySession w).sub = w.sub ∧
    (DestroySession w).delegates = w.delegates ∧
    (DestroySession w).engine = w.engine := by
  simp [newActions, DestroySession, World.Broadcast, hinvalid, Action.isBackendCall]

/-- Witness for C11: a subsystem built without a session interface. -/
theorem DestroySession_unavailable_witness :
    (World.init false engineExistingAcceptAll).sub.SessionInterfaceValid = false ∧
    newActions (World.init false engineExistingAcceptAll)
        (DestroySession (World.init false engineExistingAcceptAll)) =
      [Action.Broadcast (Event.MultiplayerOnDestroySessionComplete false)] :=
  ⟨by decide, (DestroySession_unavailable (World.init false engineExistingAcceptAll)
    (by decide)).1⟩

/-- C12.  With the session interface unavailable, `CreateSession n m` and `FindSessions k`
return the world they were given: nothing is traced (no event, no call on the session
interface) and no member changes. -/
theorem CreateSession_FindSessions_unavailable (n : Int) (m : String) (k : Int) (w : World)
    (hinvalid : w.sub.SessionInterfaceValid = false) :
    CreateSession n m w = w ∧ newActions w (CreateSession n m w) = [] ∧
    FindSessions k w = w ∧ newActions w (FindSessions k w) = [] := by
  simp [newActions, CreateSession, FindSessions, hinvalid]

/-- Witness for C12: a subsystem built without a session interface, with a session in the
slot. -/
theorem CreateSession_FindSessions_unavailable_witness :
    (World.init false engineExistingAcceptAll).sub.SessionInterfaceValid = false ∧
    CreateSession 4 "FFA" (World.init false engineExistingAcceptAll) =
      World.init false engineExistingAcceptAll ∧
    FindSessions 10000 (World.init false engineExistingAcceptAll) =
      World.init false engineExistingAcceptAll :=
  have h := CreateSession_FindSessions_unavailable 4 "FFA" 10000
    (World.init false engineExistingAcceptAll) (by decide)
  ⟨by decide, h.1, h.2.2.1⟩

/-- C13 (as stated, refuted).  With the session interface unavailable, `CreateSession 4 "FFA"`
and `FindSessions 10000` broadcast nothing: neither `CreateComplete(false)` nor
`FindComplete([], false)` is emitted. -/
theorem unavailable_create_and_find_emit_nothing :
    events (newActions (World.init false engineEmptyAcceptAll)
      (CreateSession 4 "FFA" (World.init false engineEmptyAcceptAll))) = [] ∧
    events (newActions (World.init false engineEmptyAcceptAll)
      (FindSessions 10000 (World.init false engineEmptyAcceptAll))) = [] := by
  decide

/-- C13 (amended).  With the session interface unavailable, none of the four operations
makes a call on the session interface; `JoinSession` and `DestroySession` broadcast exactly
the failure event of their kind, `CreateSession` and `FindSessions` broadcast nothing. -/
theorem unavailable_short_circuits (n : Int) (m : String) (k : Int)
    (r : FOnlineSessionSearchResult) (w : World)
    (hinvalid : w.sub.SessionInterfaceValid = false) :
    ((newActions w (CreateSession n m w)).any Action.isBackendCall = false ∧
      events (newActions w (CreateSession n m w)) = []) ∧
    ((newActions w (FindSessions k w)).any Action.isBackendCall = false ∧
      events (newActions w (FindSessions k w)) = []) ∧
    ((newActions w (JoinSession r w)).any Action.isBackendCall = false ∧
      events (newActions w (JoinSession r w)) =
        [Event.MultiplayerOnJoinSessionComplete EOnJoinSessionCompleteResult.UnknownError]) ∧
    ((newActions w (DestroySession w)).any Action.isBackendCall = false ∧
      events (newActions w (DestroySession w)) =
        [Event.MultiplayerOnDestroySessionComplete false]) := by
  simp [newActions, CreateSession, FindSessions, JoinSession, DestroySession, World.Broadcast,
    hinvalid, Action.isBackendCall, events, Action.event?]

/-- Witness for C13 (amended): a subsystem built without a session interface. -/
theorem unavailable_short_circuits_witness :
    (World.init false engineEmptyAcceptAll).sub.SessionInterfaceValid = false ∧
    events (newActions (World.init false engineEmptyAcceptAll)
      (DestroySession (World.init false engineEmptyAcceptAll))) =
        [Event.MultiplayerOnDestroySessionComplete false] ∧
    events (newActions (World.init false engineEmptyAcceptAll)
      (CreateSession 4 "FFA" (World.init false engineEmptyAcceptAll))) = [] :=
  have h := unavailable_short_circuits 4 "FFA" 10000
    { SessionIdStr := "s1", OwningUserName := "host", SessionSettings := [] }
    (World.init false engineEmptyAcceptAll) (by decide)
  ⟨by decide, h.2.2.2.2, h.1.2⟩

/-- C14.  With the session interface valid, a request that the session interface rejects
synchronously is rolled back, for each of the four operations (`CreateSession` on an empty
slot, `FindSessions`, `JoinSession`, `DestroySession`): the call registers a handle, makes
the request, clears that same handle and broadcasts exactly the failure event of its kind
(`CreateSession` looks the named session up first); the handle does not stay registered. -/
theorem synchronous_rejection_rolls_back (n : Int) (m : String) (k : Int)
    (r : FOnlineSessionSearchResult) (w : World)
    (hvalid : w.sub.SessionInterfaceValid = true) :
    (w.engine.NamedSession = false → w.engine.CreateSessionAccepted = false →
      newActions w (CreateSession n m w) =
        [Action.GetNamedSession NAME_GameSession false,
         Action.AddDelegate OpKind.create w.delegates.NextHandle,
         Action.CreateSession w.engine.PreferredUniqueNetId NAME_GameSession
           (buildSessionSettings w.engine.SubsystemName n m) false,
         Action.ClearDelegate OpKind.create w.delegates.NextHandle,
         Action.Broadcast (Event.MultiplayerOnCreateSessionComplete false)] ∧
      RolledBack OpKind.create
        (Action.CreateSession w.engine.PreferredUniqueNetId NAME_GameSession
          (buildSessionSettings w.engine.SubsystemName n m) false)
        (Event.MultiplayerOnCreateSessionComplete false) w (CreateSession n m w)) ∧
    (w.engine.FindSessionsAccepted = false →
      newActions w (FindSessions k w) =
        [Action.AddDelegate OpKind.find w.delegates.NextHandle,
         Action.FindSessions w.engine.PreferredUniqueNetId
           (buildSessionSearch w.engine.SubsystemName k) false,
         Action.ClearDelegate OpKind.find w.delegates.NextHandle,
         Action.Broadcast (Event.MultiplayerOnFindSessionsComplete [] false)] ∧
      RolledBack OpKind.find
        (Action.FindSessions w.engine.PreferredUniqueNetId
          (buildSessionSearch w.engine.SubsystemName k) false)
        (Event.MultiplayerOnFindSessionsComplete [] false) w (FindSessions k w)) ∧
    (w.engine.JoinSessionAccepted = false →
      newActions w (JoinSession r w) =
        [Action.AddDelegate OpKind.join w.delegates.NextHandle,
         Action.JoinSession w.engine.PreferredUniqueNetId NAME_GameSession r false,
         Action.ClearDelegate OpKind.join w.delegates.NextHandle,
         Action.Broadcast
           (Event.MultiplayerOnJoinSessionComplete
             EOnJoinSessionCompleteResult.UnknownError)] ∧
      RolledBack OpKind.join
        (Action.JoinSession w.engine.PreferredUniqueNetId NAME_GameSession r false)
        (Event.MultiplayerOnJoinSessionComplete EOnJoinSessionCompleteResult.UnknownError)
        w (JoinSession r w)) ∧
    (w.engine.DestroySessionAccepted = false →
      newActions w (DestroySession w) =
        [Action.AddDelegate OpKind.destroy w.delegates.NextHandle,
         Action.DestroySession NAME_GameSession false,
         Action.ClearDelegate OpKind.destroy w.delegates.NextHandle,
         Action.Broadcast (Event.MultiplayerOnDestroySessionComplete false)] ∧
      RolledBack OpKind.destroy (Action.DestroySession NAME_GameSession false)
        (Event.MultiplayerOnDestroySessionComplete false) w (DestroySession w)) := by
  refine ⟨?_, ?_, ?_, ?_⟩
  · intro hex hc
    refine ⟨?_, ?_, ?_, ?_, ?_⟩ <;>
      simp [RolledBack, requestLog, newActions, CreateSession, World.call, World.Broadcast,
        World.AddDelegate_Handle, World.ClearDelegate_Handle, hvalid, hex, hc,
        DelegateLists.set, DelegateLists.get, Action.isBackendCall, Action.isLookup, events,
        Action.event?]
    intro h0
    simp [h0]
  · intro hc
    refine ⟨?_, ?_, ?_, ?_, ?_⟩ <;>
      simp [RolledBack, requestLog, newActions, FindSessions, World.call, World.Broadcast,
        World.AddDelegate_Handle, World.ClearDelegate_Handle, hvalid, hc,
        DelegateLists.set, DelegateLists.get, Action.isBackendCall, Action.isLookup, events,
        Action.event?]
    intro h0
    simp [h0]
  · intro hc
    refine ⟨?_, ?_, ?_, ?_, ?_⟩ <;>
      simp [RolledBack, requestLog, newActions, JoinSession, World.call, World.Broadcast,
        World.AddDelegate_Handle, World.ClearDelegate_Handle, hvalid, hc,
        DelegateLists.set, DelegateLists.get, Action.isBackendCall, Action.isLookup, events,
        Action.event?]
    intro h0
    simp [h0]
  · intro hc
    refine ⟨?_, ?_, ?_, ?_, ?_⟩ <;>
      simp [RolledBack, requestLog, newActions, DestroySession, World.call, World.Broadcast,
        World.AddDelegate_Handle, World.ClearDelegate_Handle, hvalid, hc,
        DelegateLists.set, DelegateLists.get, Action.isBackendCall, Action.isLookup, events,
        Action.event?]
    intro h0
    simp [h0]

/-- Witness for C14: on a fresh subsystem with an empty slot the session interface rejects
`CreateSession 4 "FFA"` and `FindSessions 10000`. -/
theorem synchronous_rejection_rolls_back_witness :
    (World.init true engineEmptyRejectCreate).sub.SessionInterfaceValid = true ∧
    RolledBack OpKind.create
      (Action.CreateSession 7 NAME_GameSession (buildSessionSettings "Steam" 4 "FFA") false)
      (Event.MultiplayerOnCreateSessionComplete false)
      (World.init true engineEmptyRejectCreate)
      (CreateSession 4 "FFA" (World.init true engineEmptyRejectCreate)) ∧
    RolledBack OpKind.find
      (Action.FindSessions 7 (buildSessionSearch "Steam" 10000) false)
      (Event.MultiplayerOnFindSessionsComplete [] false)
      (World.init true engineEmptyRejectCreate)
      (FindSessions 10000 (World.init true engineEmptyRejectCreate)) :=
  have h := synchronous_rejection_rolls_back 4 "FFA" 10000
    { SessionIdStr := "s1", OwningUserName := "host", SessionSettings := [] }
    (World.init true engineEmptyRejectCreate) (by decide)
  ⟨by decide, (h.1 (by decide) (by decide)).2, (h.2.1 (by decide)).2⟩

/-- C15.  The destroy callback invokes `CreateSession` exactly when its flag is `true` and a
deferred create is armed: in that case it is the broadcast of `DestroyComplete` applied to
`CreateSession` with the stashed parameters, run on the world in which the destroy handle is
cleared and `bCreateSessionOnDestroy` is already `false`; otherwise it only clears the
handle and broadcasts.  With a valid session interface a create request is issued during
the callback if and only if both conditions hold, and when the slot is then empty the flag
is `false` after the callback. -/
theorem OnDestroySessionComplete_resumes_deferred_create (name : String) (s : Bool)
    (w : World) :
    ((s = true ∧ w.sub.bCreateSessionOnDestroy = true) →
      OnDestroySessionComplete name s w =
        (CreateSession w.sub.LastNumPublicConnections w.sub.LastMatchType
          { (if w.sub.SessionInterfaceValid then
              w.ClearDelegate_Handle OpKind.destroy w.sub.DestroySessionCompleteDelegateHandle
             else w) with
            sub := { w.sub with bCreateSessionOnDestroy := false } }).Broadcast
          (Event.MultiplayerOnDestroySessionComplete s)) ∧
    (¬ (s = true ∧ w.sub.bCreateSessionOnDestroy = true) →
      OnDestroySessionComplete name s w =
        (if w.sub.SessionInterfaceValid then
          w.ClearDelegate_Handle OpKind.destroy w.sub.DestroySessionCompleteDelegateHandle
         else w).Broadcast (Event.MultiplayerOnDestroySessionComplete s)) ∧
    (w.sub.SessionInterfaceValid = true →
      ((newActions w (OnDestroySessionComplete name s w)).any Action.isCreateRequest = true ↔
        (s = true ∧ w.sub.bCreateSessionOnDestroy = true))) ∧
    ((s = true ∧ w.sub.bCreateSessionOnDestroy = true) → w.engine.NamedSession = false →
      (OnDestroySessionComplete name s w).sub.bCreateSessionOnDestroy = false) := by
  refine ⟨?_, ?_, ?_, ?_⟩
  · rintro ⟨hs, hf⟩
    cases hv : w.sub.SessionInterfaceValid <;>
      simp [OnDestroySessionComplete, World.ClearDelegate_Handle, hs, hf, hv]
  · intro hn
    cases s <;> cases hf : w.sub.bCreateSessionOnDestroy <;>
      cases hv : w.sub.SessionInterfaceValid <;>
      simp [OnDestroySessionComplete, World.ClearDelegate_Handle, hf, hv] at hn ⊢
  · intro hv
    cases s <;> cases hf : w.sub.bCreateSessionOnDestroy <;>
      cases hex : w.engine.NamedSession <;> cases hd : w.engine.DestroySessionAccepted <;>
      cases hc : w.engine.CreateSessionAccepted <;>
      simp [newActions, OnDestroySessionComplete, CreateSession, DestroySession, World.call,
        World.Broadcast, World.AddDelegate_Handle, World.ClearDelegate_Handle, hf, hv, hex, hd,
        hc, Action.isCreateRequest]
  · rintro ⟨hs, hf⟩ hex
    cases hv : w.sub.SessionInterfaceValid <;> cases hc : w.engine.CreateSessionAccepted <;>
      simp [OnDestroySessionComplete, CreateSession, World.call, World.Broadcast,
        World.AddDelegate_Handle, World.ClearDelegate_Handle, hs, hf, hv, hex, hc]

/-- Witness for C15: a deferred create is armed by `CreateSession 4 "FFA"` on an occupied
slot, then the destroy completes with `true` on an empty slot. -/
theorem OnDestroySessionComplete_resumes_deferred_create_witness :
    (newActions
      (afterDeferredCreate 4 "FFA" (World.init true engineExistingRejectCreate)
        engineEmptyAcceptAll)
      (OnDestroySessionComplete NAME_GameSession true
        (afterDeferredCreate 4 "FFA" (World.init true engineExistingRejectCreate)
          engineEmptyAcceptAll))).any Action.isCreateRequest = true ∧
    (OnDestroySessionComplete NAME_GameSession true
      (afterDeferredCreate 4 "FFA" (World.init true engineExistingRejectCreate)
        engineEmptyAcceptAll)).sub.bCreateSessionOnDestroy = false :=
  have h := OnDestroySessionComplete_resumes_deferred_create NAME_GameSession true
    (afterDeferredCreate 4 "FFA" (World.init true engineExistingRejectCreate)
      engineEmptyAcceptAll)
  ⟨(h.2.2.1 (by decide)).2 ⟨rfl, by decide⟩, h.2.2.2 ⟨rfl, by decide⟩ (by decide)⟩

/-- C16.  For every flag and every state (deferred create armed or not, follow-up create
accepted or rejected, session interface valid or not), the last action of the destroy
callback is the broadcast of `DestroyComplete` with the flag it was given; in particular
that event is the last event it emits. -/
theorem OnDestroySessionComplete_ends_with_DestroyComplete (name : String) (s : Bool)
    (w : World) :
    (newActions w (OnDestroySessionComplete name s w)).getLast? =
      some (Action.Broadcast (Event.MultiplayerOnDestroySessionComplete s)) ∧
    (events (newActions w (OnDestroySessionComplete name s w))).getLast? =
      some (Event.MultiplayerOnDestroySessionComplete s) := by
  cases s <;> cases hf : w.sub.bCreateSessionOnDestroy <;>
    cases hv : w.sub.SessionInterfaceValid <;> cases hex : w.engine.NamedSession <;>
    cases hd : w.engine.DestroySessionAccepted <;> cases hc : w.engine.CreateSessionAccepted <;>
    simp [newActions, OnDestroySessionComplete, CreateSession, DestroySession, World.call,
      World.Broadcast, World.AddDelegate_Handle, World.ClearDelegate_Handle, hf, hv, hex, hd, hc,
      events, Action.event?]

/-- C17.  Whatever flag the session interface reports, when the last search holds a
non-empty result sequence the find callback broadcasts exactly one event: `FindComplete`
with that sequence, unchanged and in the same order, and with the flag it was given. -/
theorem OnFindSessionsComplete_hands_results_over (b : Bool) (w : World)
    (search : FOnlineSessionSearch)
    (hsearch : w.sub.LastSessionSearch = some search)
    (hnonempty : search.SearchResults ≠ []) :
    ∃ w', OnFindSessionsComplete b w = some w' ∧
      events (newActions w w') =
        [Event.MultiplayerOnFindSessionsComplete search.SearchResults b] := by
  cases hv : w.sub.SessionInterfaceValid <;>
    simp [OnFindSessionsComplete, World.ClearDelegate_Handle, World.Broadcast, hsearch,
      hnonempty, hv, newActions, events, Action.event?]

/-- Witness for C17: two results are delivered for an accepted `FindSessions 10`, and the
session interface reports failure. -/
theorem OnFindSessionsComplete_hands_results_over_witness :
    ∃ w', OnFindSessionsComplete false
        ((FindSessions 10 (World.init true engineEmptyAcceptAll)).deliverSearchResults
          [{ SessionIdStr := "s1", OwningUserName := "ann", SessionSettings := [] },
           { SessionIdStr := "s2", OwningUserName := "bob",
             SessionSettings := [("MatchType", "FFA")] }]) = some w' ∧
      events (newActions
        ((FindSessions 10 (World.init true engineEmptyAcceptAll)).deliverSearchResults
          [{ SessionIdStr := "s1", OwningUserName := "ann", SessionSettings := [] },
           { SessionIdStr := "s2", OwningUserName := "bob",
             SessionSettings := [("MatchType", "FFA")] }]) w') =
        [Event.MultiplayerOnFindSessionsComplete
          [{ SessionIdStr := "s1", OwningUserName := "ann", SessionSettings := [] },
           { SessionIdStr := "s2", OwningUserName := "bob",
             SessionSettings := [("MatchType", "FFA")] }] false] :=
  OnFindSessionsComplete_hands_results_over false
    ((FindSessions 10 (World.init true engineEmptyAcceptAll)).deliverSearchResults
      [{ SessionIdStr := "s1", OwningUserName := "ann", SessionSettings := [] },
       { SessionIdStr := "s2", OwningUserName := "bob",
         SessionSettings := [("MatchType", "FFA")] }])
    { buildSessionSearch "Steam" 10 with
      SearchResults :=
        [{ SessionIdStr := "s1", OwningUserName := "ann", SessionSettings := [] },
         { SessionIdStr := "s2", OwningUserName := "bob",
           SessionSettings := [("MatchType", "FFA")] }] }
    (by decide) (by decide)

/-- C18.  The operation `StartSession` is inert: it returns the world it was given (no call
on the session interface, no event, no member changed), and so does the callback
`OnStartSessionComplete`.  No operation and no completion callback broadcasts a
start-complete event, and no run does either, whatever the calling discipline. -/
theorem StartSession_inert (name : String) (b : Bool) (w : World) :
    StartSession w = w ∧
    newActions w (StartSession w) = [] ∧
    OnStartSessionComplete name b w = w ∧
    (∀ (s : Step) (w' : World), s.apply w = some w' →
      (events (newActions w w')).any Event.isStartComplete = false) ∧
    (∀ (allowed : Pending → World → Step → Bool) (steps : List Step) (p p' : Pending)
      (w' : World), runSteps allowed steps w p = Run.ok w' p' →
      (events (newActions w w')).any Event.isStartComplete = false) := by
  refine ⟨rfl, by simp [StartSession, newActions], rfl, ?_, ?_⟩
  · intro s w' h
    exact Step_apply_no_start s w w' h
  · intro allowed steps p p' w' h
    exact (runSteps_no_start allowed steps w w' p p' h).2

/-- Witness for C18: `StartSession` on a fresh subsystem, and the destroy callback that
resumes a deferred create broadcasts no start-complete event. -/
theorem StartSession_inert_witness :
    StartSession (World.init true engineEmptyAcceptAll) = World.init true engineEmptyAcceptAll ∧
    (events (newActions (World.init true engineEmptyAcceptAll)
      (CreateSession 4 "FFA" (World.init true engineEmptyAcceptAll)))).any
        Event.isStartComplete = false :=
  have h := StartSession_inert NAME_GameSession true (World.init true engineEmptyAcceptAll)
  ⟨h.1, h.2.2.2.1 (Step.CreateSession 4 "FFA")
    (CreateSession 4 "FFA" (World.init true engineEmptyAcceptAll)) rfl⟩

/-- C19.  With the session interface valid, `CreateSession n m` issues exactly one create
request; it is made for `NAME_GameSession` and carries the settings object built from the
arguments, which is also kept in `LastSessionSettings`: `NumPublicConnections = n`,
`MatchType = m`, the five flags `true`, `BuildUniqueId = 1`, and `bIsLANMatch` true exactly
when the subsystem name is `"NULL"`. -/
theorem CreateSession_request_settings (n : Int) (m : String) (w : World)
    (hvalid : w.sub.SessionInterfaceValid = true) :
    (newActions w (CreateSession n m w)).filter Action.isCreateRequest =
      [Action.CreateSession w.engine.PreferredUniqueNetId NAME_GameSession
        (buildSessionSettings w.engine.SubsystemName n m) w.engine.CreateSessionAccepted] ∧
    (CreateSession n m w).sub.LastSessionSettings =
      some (buildSessionSettings w.engine.SubsystemName n m) ∧
    (buildSessionSettings w.engine.SubsystemName n m).NumPublicConnections = n ∧
    SettingsGet "MatchType" (buildSessionSettings w.engine.SubsystemName n m).Settings
      = some m ∧
    (buildSessionSettings w.engine.SubsystemName n m).bAllowJoinInProgress = true ∧
    (buildSessionSettings w.engine.SubsystemName n m).bAllowJoinViaPresence = true ∧
    (buildSessionSettings w.engine.SubsystemName n m).bShouldAdvertise = true ∧
    (buildSessionSettings w.engine.SubsystemName n m).bUsesPresence = true ∧
    (buildSessionSettings w.engine.SubsystemName n m).bUseLobbiesIfAvailable = true ∧
    (buildSessionSettings w.engine.SubsystemName n m).BuildUniqueId = 1 ∧
    ((buildSessionSettings w.engine.SubsystemName n m).bIsLANMatch = true ↔
      w.engine.SubsystemName = "NULL") := by
  refine ⟨?_, ?_, ?_, ?_, ?_, ?_, ?_, ?_, ?_, ?_, ?_⟩
  · cases hex : w.engine.NamedSession
    · rw [newActions, CreateSession_empty_trace n m w hvalid hex]
      cases hc : w.engine.CreateSessionAccepted <;> simp [Action.isCreateRequest]
    · rw [newActions, CreateSession_existing_trace n m w hvalid hex]
      cases hd : w.engine.DestroySessionAccepted <;>
        cases hc : w.engine.CreateSessionAccepted <;> simp [Action.isCreateRequest]
  · cases hex : w.engine.NamedSession <;> cases hd : w.engine.DestroySessionAccepted <;>
      cases hc : w.engine.CreateSessionAccepted <;>
      simp [CreateSession, DestroySession, World.call, World.Broadcast,
        World.AddDelegate_Handle, World.ClearDelegate_Handle, hvalid, hex, hd, hc]
  all_goals simp [buildSessionSettings, FOnlineSessionSettings.new, SettingsSet, SettingsGet]

/-- Witness for C19: `CreateSession 4 "FFA"` on a fresh subsystem of the local pseudo
backend. -/
theorem CreateSession_request_settings_witness :
    (newActions (World.init true { engineEmptyAcceptAll with SubsystemName := "NULL" })
      (CreateSession 4 "FFA"
        (World.init true { engineEmptyAcceptAll with SubsystemName := "NULL" }))).filter
        Action.isCreateRequest =
      [Action.CreateSession 7 NAME_GameSession
        { bIsLANMatch := true, NumPublicConnections := 4, bAllowJoinInProgress := true,
          bAllowJoinViaPresence := true, bShouldAdvertise := true, bUsesPresence := true,
          bUseLobbiesIfAvailable := true, Settings := [("MatchType", "FFA")],
          BuildUniqueId := 1 } true] :=
  (CreateSession_request_settings 4 "FFA"
    (World.init true { engineEmptyAcceptAll with SubsystemName := "NULL" }) (by decide)).1

/-- C20.  With the session interface valid, `FindSessions k` issues exactly one find request;
it carries the search object built from the argument, which is also kept in
`LastSessionSearch`: `MaxSearchResults = k`, the presence query setting `true`, no result
yet, and `bIsLanQuery` true exactly when the subsystem name is `"NULL"`, which is the
condition of `bIsLANMatch` in `CreateSession`: for one subsystem name the two flags are
equal. -/
theorem FindSessions_request_search (k : Int) (w : World)
    (hvalid : w.sub.SessionInterfaceValid = true) :
    (newActions w (FindSessions k w)).filter Action.isFindRequest =
      [Action.FindSessions w.engine.PreferredUniqueNetId
        (buildSessionSearch w.engine.SubsystemName k) w.engine.FindSessionsAccepted] ∧
    (FindSessions k w).sub.LastSessionSearch =
      some (buildSessionSearch w.engine.SubsystemName k) ∧
    (buildSessionSearch w.engine.SubsystemName k).MaxSearchResults = k ∧
    SettingsGet SEARCH_PRESENCE (buildSessionSearch w.engine.SubsystemName k).QuerySettings
      = some true ∧
    (buildSessionSearch w.engine.SubsystemName k).SearchResults = [] ∧
    ((buildSessionSearch w.engine.SubsystemName k).bIsLanQuery = true ↔
      w.engine.SubsystemName = "NULL") ∧
    (∀ (n : Int) (m : String),
      (buildSessionSearch w.engine.SubsystemName k).bIsLanQuery =
        (buildSessionSettings w.engine.SubsystemName n m).bIsLANMatch) := by
  refine ⟨?_, ?_, ?_, ?_, ?_, ?_, ?_⟩
  · cases hc : w.engine.FindSessionsAccepted <;>
      simp [newActions, FindSessions, World.call, World.Broadcast, World.AddDelegate_Handle,
        World.ClearDelegate_Handle, hvalid, hc, Action.isFindRequest]
  · cases hc : w.engine.FindSessionsAccepted <;>
      simp [FindSessions, World.call, World.Broadcast, World.AddDelegate_Handle,
        World.ClearDelegate_Handle, hvalid, hc]
  all_goals
    simp [buildSessionSearch, buildSessionSettings, FOnlineSessionSearch.new,
      FOnlineSessionSettings.new, SettingsSet, SettingsGet]

/-- Witness for C20: `FindSessions 10000` on a fresh subsystem of the local pseudo backend. -/
theorem FindSessions_request_search_witness :
    (newActions (World.init true { engineEmptyAcceptAll with SubsystemName := "NULL" })
      (FindSessions 10000
        (World.init true { engineEmptyAcceptAll with SubsystemName := "NULL" }))).filter
        Action.isFindRequest =
      [Action.FindSessions 7
        { SearchResults := [], MaxSearchResults := 10000, bIsLanQuery := true,
          QuerySettings := [("PRESENCESEARCH", true)] } true] :=
  (FindSessions_request_search 10000
    (World.init true { engineEmptyAcceptAll with SubsystemName := "NULL" }) (by decide)).1

/-- C21.  With the session interface valid, the first action of each of the four completion
callbacks is the clear of the handle of its kind, for every argument (success or failure):
every broadcast and every request made during the callback comes after it. -/
theorem completion_callbacks_clear_first (name : String) (b : Bool)
    (r : EOnJoinSessionCompleteResult) (w : World)
    (hvalid : w.sub.SessionInterfaceValid = true) :
    (newActions w (OnCreateSessionComplete name b w)).head? =
      some (Action.ClearDelegate OpKind.create w.sub.CreateSessionCompleteDelegateHandle) ∧
    (∀ w', OnFindSessionsComplete b w = some w' →
      (newActions w w').head? =
        some (Action.ClearDelegate OpKind.find w.sub.FindSessionsCompleteDelegateHandle)) ∧
    (newActions w (OnJoinSessionComplete name r w)).head? =
      some (Action.ClearDelegate OpKind.join w.sub.JoinSessionCompleteDelegateHandle) ∧
    (newActions w (OnDestroySessionComplete name b w)).head? =
      some (Action.ClearDelegate OpKind.destroy w.sub.DestroySessionCompleteDelegateHandle) := by
  refine ⟨?_, ?_, ?_, ?_⟩
  · simp [newActions, OnCreateSessionComplete, World.Broadcast, World.ClearDelegate_Handle,
      hvalid]
  · intro w' h
    cases hs : w.sub.LastSessionSearch with
    | none => simp [OnFindSessionsComplete, World.ClearDelegate_Handle, hs, hvalid] at h
    | some search =>
      by_cases hr : search.SearchResults = [] <;>
        simp [OnFindSessionsComplete, World.ClearDelegate_Handle, World.Broadcast, hs, hvalid,
          hr] at h <;>
        subst h <;> simp [newActions]
  · simp [newActions, OnJoinSessionComplete, World.Broadcast, World.ClearDelegate_Handle,
      hvalid]
  · cases b <;> cases hf : w.sub.bCreateSessionOnDestroy <;>
      cases hex : w.engine.NamedSession <;> cases hd : w.engine.DestroySessionAccepted <;>
      cases hc : w.engine.CreateSessionAccepted <;>
      simp [newActions, OnDestroySessionComplete, CreateSession, DestroySession, World.call,
        World.Broadcast, World.AddDelegate_Handle, World.ClearDelegate_Handle, hf, hvalid, hex,
        hd, hc]

/-- Witness for C21: the completions of an accepted `FindSessions 10` (reported as failed)
and of a destroy reported as failed. -/
theorem completion_callbacks_clear_first_witness :
    (FindSessions 10 (World.init true engineEmptyAcceptAll)).sub.SessionInterfaceValid = true ∧
    (newActions (FindSessions 10 (World.init true engineEmptyAcceptAll))
      (((FindSessions 10 (World.init true engineEmptyAcceptAll)).ClearDelegate_Handle
        OpKind.find 1).Broadcast (Event.MultiplayerOnFindSessionsComplete [] false))).head? =
      some (Action.ClearDelegate OpKind.find 1) ∧
    (newActions (FindSessions 10 (World.init true engineEmptyAcceptAll))
      (OnDestroySessionComplete NAME_GameSession false
        (FindSessions 10 (World.init true engineEmptyAcceptAll)))).head? =
      some (Action.ClearDelegate OpKind.destroy 0) :=
  have h := completion_callbacks_clear_first NAME_GameSession false
    EOnJoinSessionCompleteResult.UnknownError
    (FindSessions 10 (World.init true engineEmptyAcceptAll)) (by decide)
  ⟨by decide, h.2.1 _ (by decide), h.2.2.2⟩

/-- C22.  Nothing is retried: the create, find and join callbacks make no request to the
session interface, whatever their argument; the destroy callback makes none when its flag
is `false`; and in each of the four operations no request follows the rejected request of
its kind. -/
theorem failed_operations_are_not_retried (name : String) (b : Bool)
    (res : EOnJoinSessionCompleteResult) (n : Int) (m : String) (k : Int)
    (r : FOnlineSessionSearchResult) (w : World) :
    (newActions w (OnCreateSessionComplete name b w)).any Action.isRequest = false ∧
    (∀ w', OnFindSessionsComplete b w = some w' →
      (newActions w w').any Action.isRequest = false) ∧
    (newActions w (OnJoinSessionComplete name res w)).any Action.isRequest = false ∧
    (newActions w (OnDestroySessionComplete name false w)).any Action.isRequest = false ∧
    requestsAfterRejected OpKind.create (newActions w (CreateSession n m w)) = [] ∧
    requestsAfterRejected OpKind.find (newActions w (FindSessions k w)) = [] ∧
    requestsAfterRejected OpKind.join (newActions w (JoinSession r w)) = [] ∧
    requestsAfterRejected OpKind.destroy (newActions w (DestroySession w)) = [] := by
  refine ⟨?_, ?_, ?_, ?_, ?_, ?_, ?_, ?_⟩
  · cases hv : w.sub.SessionInterfaceValid <;>
      simp [newActions, OnCreateSessionComplete, World.Broadcast, World.ClearDelegate_Handle,
        hv, Action.isRequest, Action.isRequestOf]
  · intro w' h
    cases hs : w.sub.LastSessionSearch with
    | none =>
      cases hv : w.sub.SessionInterfaceValid <;>
        simp [OnFindSessionsComplete, World.ClearDelegate_Handle, hs, hv] at h
    | some search =>
      cases hv : w.sub.SessionInterfaceValid <;>
        by_cases hr : search.SearchResults = [] <;>
        simp [OnFindSessionsComplete, World.ClearDelegate_Handle, World.Broadcast, hs, hv, hr]
          at h <;>
        subst h <;> simp [newActions, Action.isRequest, Action.isRequestOf]
  · cases hv : w.sub.SessionInterfaceValid <;>
      simp [newActions, OnJoinSessionComplete, World.Broadcast, World.ClearDelegate_Handle,
        hv, Action.isRequest, Action.isRequestOf]
  · cases hv : w.sub.SessionInterfaceValid <;>
      simp [newActions, OnDestroySessionComplete, World.Broadcast, World.ClearDelegate_Handle,
        hv, Action.isRequest, Action.isRequestOf]
  · cases hv : w.sub.SessionInterfaceValid <;> cases hex : w.engine.NamedSession <;>
      cases hd : w.engine.DestroySessionAccepted <;>
      cases hc : w.engine.CreateSessionAccepted <;>
      simp [requestsAfterRejected, newActions, CreateSession, DestroySession, World.call,
        World.Broadcast, World.AddDelegate_Handle, World.ClearDelegate_Handle, hv, hex, hd, hc,
        Action.isRequest, Action.isRequestOf, Action.isRejectedRequest, List.dropWhile]
  · cases hv : w.sub.SessionInterfaceValid <;> cases hc : w.engine.FindSessionsAccepted <;>
      simp [requestsAfterRejected, newActions, FindSessions, World.call, World.Broadcast,
        World.AddDelegate_Handle, World.ClearDelegate_Handle, hv, hc, Action.isRequest,
        Action.isRequestOf, Action.isRejectedRequest, List.dropWhile]
  · cases hv : w.sub.SessionInterfaceValid <;> cases hc : w.engine.JoinSessionAccepted <;>
      simp [requestsAfterRejected, newActions, JoinSession, World.call, World.Broadcast,
        World.AddDelegate_Handle, World.ClearDelegate_Handle, hv, hc, Action.isRequest,
        Action.isRequestOf, Action.isRejectedRequest, List.dropWhile]
  · cases hv : w.sub.SessionInterfaceValid <;> cases hc : w.engine.DestroySessionAccepted <;>
      simp [requestsAfterRejected, newActions, DestroySession, World.call, World.Broadcast,
        World.AddDelegate_Handle, World.ClearDelegate_Handle, hv, hc, Action.isRequest,
        Action.isRequestOf, Action.isRejectedRequest, List.dropWhile]

/-- Witness for C22: the find callback of an accepted `FindSessions 10`, reported as failed
with no result, makes no request, and no request follows a rejected `CreateSession 4 "FFA"`. -/
theorem failed_operations_are_not_retried_witness :
    (newActions (FindSessions 10 (World.init true engineEmptyAcceptAll))
      (((FindSessions 10 (World.init true engineEmptyAcceptAll)).ClearDelegate_Handle
        OpKind.find 1).Broadcast (Event.MultiplayerOnFindSessionsComplete [] false))).any
        Action.isRequest = false ∧
    requestsAfterRejected OpKind.create
      (newActions (FindSessions 10 (World.init true engineEmptyAcceptAll))
        (CreateSession 4 "FFA" (FindSessions 10 (World.init true engineEmptyAcceptAll)))) = [] :=
  have h := failed_operations_are_not_retried NAME_GameSession false
    EOnJoinSessionCompleteResult.UnknownError 4 "FFA" 10
    { SessionIdStr := "s1", OwningUserName := "host", SessionSettings := [] }
    (FindSessions 10 (World.init true engineEmptyAcceptAll))
  ⟨h.2.1 _ (by decide), h.2.2.2.2.1⟩

/-- C23.  The operations `FindSessions` and `JoinSession` and the find and join callbacks
leave everything of the create and destroy kinds alone, for every state and argument: the
deferred create flag, the stash, the create and destroy handle members and delegate lists
are unchanged, no create or destroy request is made and no create-complete or
destroy-complete event is broadcast. -/
theorem find_and_join_leave_create_destroy_alone (k : Int)
    (r : FOnlineSessionSearchResult) (name : String) (b : Bool)
    (res : EOnJoinSessionCompleteResult) (w : World) :
    LeavesCreateDestroyAlone w (FindSessions k w) ∧
    LeavesCreateDestroyAlone w (JoinSession r w) ∧
    (∀ w', OnFindSessionsComplete b w = some w' → LeavesCreateDestroyAlone w w') ∧
    LeavesCreateDestroyAlone w (OnJoinSessionComplete name res w) := by
  refine ⟨?_, ?_, ?_, ?_⟩
  · cases hv : w.sub.SessionInterfaceValid <;> cases hc : w.engine.FindSessionsAccepted <;>
      simp [LeavesCreateDestroyAlone, newActions, FindSessions, World.call, World.Broadcast,
        World.AddDelegate_Handle, World.ClearDelegate_Handle, hv, hc, DelegateLists.set,
        DelegateLists.get, Action.isRequestOf, events, Action.event?, Event.isCompleteOf]
  · cases hv : w.sub.SessionInterfaceValid <;> cases hc : w.engine.JoinSessionAccepted <;>
      simp [LeavesCreateDestroyAlone, newActions, JoinSession, World.call, World.Broadcast,
        World.AddDelegate_Handle, World.ClearDelegate_Handle, hv, hc, DelegateLists.set,
        DelegateLists.get, Action.isRequestOf, events, Action.event?, Event.isCompleteOf]
  · intro w' h
    cases hs : w.sub.LastSessionSearch with
    | none =>
      cases hv : w.sub.SessionInterfaceValid <;>
        simp [OnFindSessionsComplete, World.ClearDelegate_Handle, hs, hv] at h
    | some search =>
      cases hv : w.sub.SessionInterfaceValid <;>
        by_cases hr : search.SearchResults = [] <;>
        simp [OnFindSessionsComplete, World.ClearDelegate_Handle, World.Broadcast, hs, hv, hr]
          at h <;>
        subst h <;>
        simp [LeavesCreateDestroyAlone, newActions, DelegateLists.set, DelegateLists.get,
          Action.isRequestOf, events, Action.event?, Event.isCompleteOf]
  · cases hv : w.sub.SessionInterfaceValid <;>
      simp [LeavesCreateDestroyAlone, newActions, OnJoinSessionComplete, World.Broadcast,
        World.ClearDelegate_Handle, hv, DelegateLists.set, DelegateLists.get,
        Action.isRequestOf, events, Action.event?, Event.isCompleteOf]

/-- Witness for C23: the find callback while a deferred create is armed and a destroy is
unresolved. -/
theorem find_and_join_leave_create_destroy_alone_witness :
    LeavesCreateDestroyAlone
      (FindSessions 10 (CreateSession 4 "FFA" (World.init true engineExistingAcceptAll)))
      (((FindSessions 10
          (CreateSession 4 "FFA" (World.init true engineExistingAcceptAll))).ClearDelegate_Handle
        OpKind.find 3).Broadcast (Event.MultiplayerOnFindSessionsComplete [] false)) :=
  (find_and_join_leave_create_destroy_alone 10
    { SessionIdStr := "s1", OwningUserName := "host", SessionSettings := [] }
    NAME_GameSession true EOnJoinSessionCompleteResult.Success
    (FindSessions 10 (CreateSession 4 "FFA" (World.init true engineExistingAcceptAll)))).2.2.1
    _ (by decide)

/-- C24.  A failed destroy leaves the deferred create armed.  After `CreateSession n m` found
a session in the slot, the destroy callback with flag `false` leaves
`bCreateSessionOnDestroy = true` and the stash `(n, m)`; a later destroy callback with flag
`true` then issues exactly one create request, built from `(n, m)`, whether it follows the
failed destroy directly or completes a `DestroySession` the consumer called itself with no
`CreateSession` in between. -/
theorem failed_destroy_leaves_deferred_create_armed (n : Int) (m : String) (w : World)
    (e1 e2 e3 : Engine)
    (hvalid : w.sub.SessionInterfaceValid = true) (hex : w.engine.NamedSession = true) :
    (afterFailedDestroy n m w e1).sub.bCreateSessionOnDestroy = true ∧
    (afterFailedDestroy n m w e1).sub.LastNumPublicConnections = n ∧
    (afterFailedDestroy n m w e1).sub.LastMatchType = m ∧
    (newActions ((afterFailedDestroy n m w e1).setEngine e2)
        (OnDestroySessionComplete NAME_GameSession true
          ((afterFailedDestroy n m w e1).setEngine e2))).filter Action.isCreateRequest =
      [Action.CreateSession e2.PreferredUniqueNetId NAME_GameSession
        (buildSessionSettings e2.SubsystemName n m) e2.CreateSessionAccepted] ∧
    (newActions (afterUnrelatedDestroy n m w e1 e2 e3)
        (OnDestroySessionComplete NAME_GameSession true
          (afterUnrelatedDestroy n m w e1 e2 e3))).filter Action.isCreateRequest =
      [Action.CreateSession e3.PreferredUniqueNetId NAME_GameSession
        (buildSessionSettings e3.SubsystemName n m) e3.CreateSessionAccepted] := by
  have hs := CreateSession_existing_sub n m w hvalid hex
  have hsub : (afterFailedDestroy n m w e1).sub = (CreateSession n m w).sub := by
    simp [afterFailedDestroy, afterDeferredCreate, OnDestroySessionComplete_false_sub,
      World.setEngine]
  have hd := DestroySession_deferred ((afterFailedDestroy n m w e1).setEngine e2)
  have hsub2 : ((afterFailedDestroy n m w e1).setEngine e2).sub = (CreateSession n m w).sub := by
    simpa [World.setEngine] using hsub
  rw [hsub2] at hd
  refine ⟨by rw [hsub]; exact hs.1, by rw [hsub]; exact hs.2.1, by rw [hsub]; exact hs.2.2.1,
    ?_, ?_⟩
  · have h := OnDestroySessionComplete_resume_requests NAME_GameSession
      ((afterFailedDestroy n m w e1).setEngine e2)
      (by rw [hsub2]; exact hs.2.2.2) (by rw [hsub2]; exact hs.1)
    rw [h, hsub2, hs.2.1, hs.2.2.1]
    simp [World.setEngine]
  · have hsub3 : ∀ x : World, (x.setEngine e3).sub = x.sub := fun x => rfl
    have h := OnDestroySessionComplete_resume_requests NAME_GameSession
      (afterUnrelatedDestroy n m w e1 e2 e3)
      (by rw [afterUnrelatedDestroy, hsub3, hd.2.2.2]; exact hs.2.2.2)
      (by rw [afterUnrelatedDestroy, hsub3, hd.1]; exact hs.1)
    rw [h]
    have hn : (afterUnrelatedDestroy n m w e1 e2 e3).sub.LastNumPublicConnections = n := by
      rw [afterUnrelatedDestroy, hsub3, hd.2.1]; exact hs.2.1
    have hm : (afterUnrelatedDestroy n m w e1 e2 e3).sub.LastMatchType = m := by
      rw [afterUnrelatedDestroy, hsub3, hd.2.2.1]; exact hs.2.2.1
    rw [hn, hm]
    simp [afterUnrelatedDestroy, World.setEngine]

/-- Witness for C24: `CreateSession 4 "FFA"` on an occupied slot, the destroy fails, the
consumer calls `DestroySession`, and its completion issues the create for `(4, "FFA")`. -/
theorem failed_destroy_leaves_deferred_create_armed_witness :
    (World.init true engineExistingRejectCreate).sub.SessionInterfaceValid = true ∧
    (World.init true engineExistingRejectCreate).engine.NamedSession = true ∧
    (afterFailedDestroy 4 "FFA" (World.init true engineExistingRejectCreate)
      engineExistingRejectCreate).sub.bCreateSessionOnDestroy = true ∧
    (newActions
        (afterUnrelatedDestroy 4 "FFA" (World.init true engineExistingRejectCreate)
          engineExistingRejectCreate engineExistingAcceptAll engineEmptyAcceptAll)
        (OnDestroySessionComplete NAME_GameSession true
          (afterUnrelatedDestroy 4 "FFA" (World.init true engineExistingRejectCreate)
            engineExistingRejectCreate engineExistingAcceptAll engineEmptyAcceptAll))).filter
        Action.isCreateRequest =
      [Action.CreateSession 7 NAME_GameSession (buildSessionSettings "Steam" 4 "FFA") true] :=
  have h := failed_destroy_leaves_deferred_create_armed 4 "FFA"
    (World.init true engineExistingRejectCreate) engineExistingRejectCreate
    engineExistingAcceptAll engineEmptyAcceptAll (by decide) (by decide)
  ⟨by decide, by decide, h.1, h.2.2.2.2⟩

/-- C26.  From a fresh subsystem, at the end of every run, under any calling discipline:
whenever a find delegate is registered, and whenever an accepted find request is
unresolved, `LastSessionSearch` is set, so the find callback is defined.  When completion
notifications are delivered only for unresolved requests, no run reads a missing search
object. -/
theorem search_object_set_while_find_registered (steps : List Step) (valid : Bool)
    (e : Engine) :
    (∀ (allowed : Pending → World → Step → Bool) (w : World) (p : Pending),
      runSteps allowed steps (World.init valid e) Pending.none = Run.ok w p →
        (w.delegates.OnFindSessionsCompleteDelegates ≠ [] →
          w.sub.LastSessionSearch.isSome = true ∧
          ∀ b, ∃ w', OnFindSessionsComplete b w = some w') ∧
        (0 < p.find →
          w.sub.LastSessionSearch.isSome = true ∧
          ∀ rs b, ∃ w', (Step.FindSessionsCompleted rs b).apply w = some w')) ∧
    runSteps answersOnly steps (World.init valid e) Pending.none ≠ Run.nullSearch := by
  refine ⟨?_, runSteps_never_null steps _ _ (FindInv_init valid e)⟩
  intro allowed w p hrun
  have hinv := runSteps_find_inv allowed steps _ w _ p (FindInv_init valid e) hrun
  constructor
  · intro hreg
    have hsome : w.sub.LastSessionSearch.isSome = true := by
      rcases hinv with h | ⟨h1, _⟩
      · exact h
      · exact absurd h1 hreg
    exact ⟨hsome, fun b => OnFindSessionsComplete_defined b w hsome⟩
  · intro hpos
    have hsome : w.sub.LastSessionSearch.isSome = true := by
      rcases hinv with h | ⟨_, h2⟩
      · exact h
      · omega
    refine ⟨hsome, fun rs b => ?_⟩
    simp only [Step.apply]
    apply OnFindSessionsComplete_defined
    cases hs : w.sub.LastSessionSearch with
    | none => simp [hs] at hsome
    | some search => simp [World.deliverSearchResults, hs]

/-- Witness for C26: after an accepted `FindSessions 10` on a fresh subsystem a find
delegate is registered, a find request is unresolved and the search object is set. -/
theorem search_object_set_while_find_registered_witness :
    (FindSessions 10
      (World.init true engineEmptyAcceptAll)).delegates.OnFindSessionsCompleteDelegates ≠ [] ∧
    (FindSessions 10 (World.init true engineEmptyAcceptAll)).sub.LastSessionSearch.isSome
      = true ∧
    runSteps answersOnly [Step.FindSessions 10, Step.FindSessionsCompleted [] true]
      (World.init true engineEmptyAcceptAll) Pending.none ≠ Run.nullSearch :=
  have h := search_object_set_while_find_registered
    [Step.FindSessions 10] true engineEmptyAcceptAll
  have h2 := search_object_set_while_find_registered
    [Step.FindSessions 10, Step.FindSessionsCompleted [] true] true engineEmptyAcceptAll
  ⟨by decide,
    ((h.1 answersOnly (FindSessions 10 (World.init true engineEmptyAcceptAll))
      { create := 0, find := 1, join := 0, destroy := 0 } (by decide)).1 (by decide)).1,
    h2.2⟩

end MultiplayerSessions
